import Mathlib

/-!
Verification of the OPTE / oxide-vpc packet-processing engine spec.

This file shallowly embeds the Rust code of the repository (the
`oxide-vpc` engine module, its router layer, and the `opte-api` Geneve
VNI type) into Lean and proves the specification's claims about it.

Modelling conventions:
  * Rust `String` values are modelled as `List Char`.
  * Machine integers are modelled as `Nat` (with `Fin` bounds where the
    Rust type bounds the value, e.g. `u8` octets of an IPv4 address).
  * Fallible Rust functions returning `Result` are modelled with
    `Except`; functions that can panic (`unwrap` on `None`) are wrapped
    in `Option`, where `none` models the panic.
  * Code of the repository that is not part of the provided sources
    (e.g. the address `Display`/`FromStr` impls, `FlowTable`, `Port`)
    is modelled from the spec; each such definition carries a doc
    comment starting with `Modelled from the spec:`.
-/

namespace OpteSpec

/-! ## Character-level string machinery (model of Rust string ops) -/

/-- Numeric value of a decimal digit character. -/
def digitVal (c : Char) : Nat := c.toNat - 48

/-- Numeric value of a lowercase hexadecimal digit character. -/
def hexVal (c : Char) : Nat :=
  if 97 ≤ c.toNat then c.toNat - 87 else c.toNat - 48

/-- Recognizer for lowercase hexadecimal digit characters. -/
def isHexLower (c : Char) : Bool :=
  c.isDigit || (97 ≤ c.toNat && c.toNat ≤ 102)

/-- Canonical decimal rendering of a natural number, most significant
digit first (model of Rust `Display` for unsigned integers). -/
def natDec (n : Nat) : List Char :=
  if _h : n < 10 then [Nat.digitChar n]
  else natDec (n / 10) ++ [Nat.digitChar (n % 10)]
decreasing_by simp_wf; omega

/-- Canonical lowercase hexadecimal rendering of a natural number. -/
def natHex (n : Nat) : List Char :=
  if _h : n < 16 then [Nat.digitChar n]
  else natHex (n / 16) ++ [Nat.digitChar (n % 16)]
decreasing_by simp_wf; omega

/-- Value of a decimal digit string (fold over the digits). -/
def decValue (l : List Char) : Nat :=
  l.foldl (fun a c => a * 10 + digitVal c) 0

/-- Value of a hexadecimal digit string (fold over the digits). -/
def hexValue (l : List Char) : Nat :=
  l.foldl (fun a c => a * 16 + hexVal c) 0

/-- Modelled from the spec: parse of an unsigned decimal integer, as
performed by Rust `FromStr` for unsigned integer types (not in src/).
Accepts a non-empty all-digit string. -/
def parseDec (l : List Char) : Option Nat :=
  if l ≠ [] ∧ ∀ c ∈ l, c.isDigit = true then some (decValue l) else none

/-- Modelled from the spec: parse of an unsigned hexadecimal integer
group as used in IPv6 address text (not in src/). -/
def parseHex (l : List Char) : Option Nat :=
  if l ≠ [] ∧ ∀ c ∈ l, isHexLower c = true then some (hexValue l) else none

/-- Split a character list at every occurrence of `sep` (model of Rust
`str::split`). Always returns a non-empty list of groups. -/
def splitChar (sep : Char) : List Char → List (List Char)
  | [] => [[]]
  | c :: rest =>
    match splitChar sep rest with
    | [] => [[c]]
    | g :: gs => if c = sep then [] :: g :: gs else (c :: g) :: gs

/-- Split a character list at the first occurrence of `sep` (model of
Rust `str::split_once`). -/
def splitOnce (sep : Char) : List Char → Option (List Char × List Char)
  | [] => none
  | c :: rest =>
    if c = sep then some ([], rest)
    else
      match splitOnce sep rest with
      | some p => some (c :: p.1, p.2)
      | none => none

/-! ## Address and CIDR types

The `opte-api` address types are not part of the provided sources; they
are modelled from the spec (`Modelled from the spec:` applies to the
whole group): an IPv4 address is four octets, an IPv6 address is eight
16-bit groups, a CIDR pairs an address with a bounded prefix length
(at most 32 for IPv4, at most 128 for IPv6). -/

/-- Modelled from the spec: an IPv4 address as four octets. -/
structure Ipv4Addr where
  o0 : Fin 256
  o1 : Fin 256
  o2 : Fin 256
  o3 : Fin 256
deriving DecidableEq, Repr

/-- Modelled from the spec: an IPv6 address as eight 16-bit groups. -/
structure Ipv6Addr where
  g0 : Fin 65536
  g1 : Fin 65536
  g2 : Fin 65536
  g3 : Fin 65536
  g4 : Fin 65536
  g5 : Fin 65536
  g6 : Fin 65536
  g7 : Fin 65536
deriving DecidableEq, Repr

/-- Modelled from the spec: an IPv4 CIDR with prefix length at most 32. -/
structure Ipv4Cidr where
  ip : Ipv4Addr
  prefix_len : Fin 33
deriving DecidableEq, Repr

/-- Modelled from the spec: an IPv6 CIDR with prefix length at most 128. -/
structure Ipv6Cidr where
  ip : Ipv6Addr
  prefix_len : Fin 129
deriving DecidableEq, Repr

/-- The all-zero IPv4 address. -/
def Ipv4Addr.any : Ipv4Addr := ⟨0, 0, 0, 0⟩

/-- The all-zero IPv6 address. -/
def Ipv6Addr.any : Ipv6Addr := ⟨0, 0, 0, 0, 0, 0, 0, 0⟩

/-- Modelled from the spec: dotted-quad decimal rendering of an IPv4
address (`Display` for `Ipv4Addr`, not in src/). -/
def ipv4Display (a : Ipv4Addr) : List Char :=
  natDec a.o0.val ++ '.' :: (natDec a.o1.val ++ '.' ::
    (natDec a.o2.val ++ '.' :: natDec a.o3.val))

/-- Modelled from the spec: parse of a dotted-quad IPv4 address
(`FromStr` for `Ipv4Addr`, not in src/). Each octet must fit in `u8`. -/
def ipv4FromStr (l : List Char) : Option Ipv4Addr :=
  match splitChar '.' l with
  | [p0, p1, p2, p3] =>
    match parseDec p0, parseDec p1, parseDec p2, parseDec p3 with
    | some a, some b, some c, some d =>
      if h : a < 256 ∧ b < 256 ∧ c < 256 ∧ d < 256 then
        some ⟨⟨a, h.1⟩, ⟨b, h.2.1⟩, ⟨c, h.2.2.1⟩, ⟨d, h.2.2.2⟩⟩
      else none
    | _, _, _, _ => none
  | _ => none

/-- Modelled from the spec: colon-separated hexadecimal rendering of an
IPv6 address (`Display` for `Ipv6Addr`, not in src/; rendered with all
eight groups, which the parser below accepts). -/
def ipv6Display (a : Ipv6Addr) : List Char :=
  natHex a.g0.val ++ ':' :: (natHex a.g1.val ++ ':' ::
    (natHex a.g2.val ++ ':' :: (natHex a.g3.val ++ ':' ::
      (natHex a.g4.val ++ ':' :: (natHex a.g5.val ++ ':' ::
        (natHex a.g6.val ++ ':' :: natHex a.g7.val))))))

/-- Modelled from the spec: parse of a colon-separated IPv6 address
(`FromStr` for `Ipv6Addr`, not in src/). Each group must fit in `u16`. -/
def ipv6FromStr (l : List Char) : Option Ipv6Addr :=
  match splitChar ':' l with
  | [p0, p1, p2, p3, p4, p5, p6, p7] =>
    match parseHex p0, parseHex p1, parseHex p2, parseHex p3,
          parseHex p4, parseHex p5, parseHex p6, parseHex p7 with
    | some a, some b, some c, some d, some e, some f, some g, some h =>
      if hb : a < 65536 ∧ b < 65536 ∧ c < 65536 ∧ d < 65536 ∧
              e < 65536 ∧ f < 65536 ∧ g < 65536 ∧ h < 65536 then
        some ⟨⟨a, hb.1⟩, ⟨b, hb.2.1⟩, ⟨c, hb.2.2.1⟩, ⟨d, hb.2.2.2.1⟩,
              ⟨e, hb.2.2.2.2.1⟩, ⟨f, hb.2.2.2.2.2.1⟩,
              ⟨g, hb.2.2.2.2.2.2.1⟩, ⟨h, hb.2.2.2.2.2.2.2⟩⟩
      else none
    | _, _, _, _, _, _, _, _ => none
  | _ => none

/-- Modelled from the spec: `addr/len` rendering of an IPv4 CIDR
(`Display` for `Ipv4Cidr`, not in src/). -/
def ipv4CidrDisplay (c : Ipv4Cidr) : List Char :=
  ipv4Display c.ip ++ '/' :: natDec c.prefix_len.val

/-- Modelled from the spec: parse of an `addr/len` IPv4 CIDR
(`FromStr` for `Ipv4Cidr`, not in src/). The prefix must be at most 32. -/
def ipv4CidrFromStr (l : List Char) : Option Ipv4Cidr :=
  match splitOnce '/' l with
  | some (a, p) =>
    match ipv4FromStr a, parseDec p with
    | some ip, some n =>
      if h : n < 33 then some ⟨ip, ⟨n, h⟩⟩ else none
    | _, _ => none
  | none => none

/-- Modelled from the spec: `addr/len` rendering of an IPv6 CIDR
(`Display` for `Ipv6Cidr`, not in src/). -/
def ipv6CidrDisplay (c : Ipv6Cidr) : List Char :=
  ipv6Display c.ip ++ '/' :: natDec c.prefix_len.val

/-- Modelled from the spec: parse of an `addr/len` IPv6 CIDR
(`FromStr` for `Ipv6Cidr`, not in src/). The prefix must be at most 128. -/
def ipv6CidrFromStr (l : List Char) : Option Ipv6Cidr :=
  match splitOnce '/' l with
  | some (a, p) =>
    match ipv6FromStr a, parseDec p with
    | some ip, some n =>
      if h : n < 129 then some ⟨ip, ⟨n, h⟩⟩ else none
    | _, _ => none
  | none => none

/-! ## Core engine types (opte::engine)

`Direction`, `EtherType`, `Protocol` and the packet metadata types live
in the `opte` engine crate, which is not part of the provided sources;
the variants below are the ones the provided code matches on, plus a
catch-all carrying the raw wire value. -/

/-- Modelled from the spec: packet direction (`opte::engine::Direction`). -/
inductive Direction where
  | In
  | Out
deriving DecidableEq, Repr

/-- Modelled from the spec: Ethernet type (`opte::engine::ether::EtherType`).
The provided code matches on ARP, IPv4 and IPv6; other values are kept
as their raw 16-bit number. -/
inductive EtherType where
  | arp
  | ipv4
  | ipv6
  | unknown (v : Nat)
deriving DecidableEq, Repr

/-- Modelled from the spec: IP protocol number (`opte::engine::ip4::Protocol`).
The provided code matches on ICMP, ICMPv6, TCP and UDP; other values
are kept as their raw number. -/
inductive Protocol where
  | icmp
  | icmpv6
  | tcp
  | udp
  | unknown (v : Nat)
deriving DecidableEq, Repr

/-- Modelled from the spec: decoded Ethernet header fields used by the
provided code (the dispatch in `handle_pkt` and the parser only read
`ether_type`). -/
structure EtherMeta where
  ether_type : EtherType
deriving DecidableEq, Repr

/-- Modelled from the spec: decoded inner/outer IPv4 header fields. -/
structure Ipv4Meta where
  src : Ipv4Addr
  dst : Ipv4Addr
  proto : Protocol
deriving DecidableEq, Repr

/-- Modelled from the spec: decoded inner/outer IPv6 header fields. -/
structure Ipv6Meta where
  src : Ipv6Addr
  dst : Ipv6Addr
  proto : Protocol
deriving DecidableEq, Repr

/-- Modelled from the spec: the IP metadata variant
(`opte::engine::headers::IpMeta`). -/
inductive IpMeta where
  | ip4 (m : Ipv4Meta)
  | ip6 (m : Ipv6Meta)
deriving DecidableEq, Repr

/-- The protocol of either IP metadata variant (`IpMeta::proto`). -/
def IpMeta.proto : IpMeta → Protocol
  | .ip4 m => m.proto
  | .ip6 m => m.proto

/-- Modelled from the spec: decoded TCP header fields. -/
structure TcpMeta where
  src : Nat
  dst : Nat
deriving DecidableEq, Repr

/-- Modelled from the spec: decoded UDP header fields. -/
structure UdpMeta where
  src : Nat
  dst : Nat
deriving DecidableEq, Repr

/-- Modelled from the spec: the ULP metadata variant
(`opte::engine::headers::UlpMeta`). -/
inductive UlpMeta where
  | tcp (m : TcpMeta)
  | udp (m : UdpMeta)
deriving DecidableEq, Repr

/-- Modelled from the spec: Geneve encapsulation metadata
(`opte::engine::headers::EncapMeta`); the VNI is a 24-bit value. -/
structure EncapMeta where
  vni : Nat
deriving DecidableEq, Repr

/-- Modelled from the spec: the outer tier of `PacketMeta`. -/
structure OuterMeta where
  ether : Option EtherMeta := none
  ip : Option IpMeta := none
  encap : Option EncapMeta := none
deriving DecidableEq, Repr

/-- Modelled from the spec: the inner tier of `PacketMeta`. The inner
Ethernet header is always present after a successful parse; its default
is an unknown Ethernet type, matching `EtherMeta::default()`. -/
structure InnerMeta where
  ether : EtherMeta := ⟨.unknown 0⟩
  ip : Option IpMeta := none
  ulp : Option UlpMeta := none
deriving DecidableEq, Repr

/-- Modelled from the spec: `opte::engine::packet::PacketMeta`. -/
structure PacketMeta where
  outer : OuterMeta := {}
  inner : InnerMeta := {}
deriving DecidableEq, Repr

/-- Parse errors surfaced by the parsers
(`opte::engine::packet::ParseError`); only the variants the provided
code constructs are modelled, with `badHeader` standing for the
failures of the individual header sub-parsers. -/
inductive ParseError where
  | badHeader (msg : String)
  | unexpectedEtherType (et : EtherType)
  | unexpectedProtocol (p : Protocol)
deriving DecidableEq, Repr

/-- The result of a successful parse
(`opte::engine::packet::PacketInfo`). Header byte offsets are not
modelled; the body checksum is carried as an integer delta. -/
structure PacketInfo where
  meta : PacketMeta
  body_csum : Option Int
deriving DecidableEq, Repr

/-! ## The packet reader and the header sub-parsers

The sub-parsers (`Packet::parse_ether`, `parse_ip4`, `parse_ip6`,
`parse_tcp`, `parse_udp`, `parse_geneve`) are not part of the provided
sources. Modelled from the spec: a packet buffer is abstracted as the
sequence of headers it contains, in order; each sub-parser consumes the
next header when it is of the expected kind and fails with `badHeader`
otherwise. An IP header carries its pseudo-header checksum and a ULP
header carries its checksum-minus-header, so the provided checksum
arithmetic can be translated. -/

/-- Modelled from the spec: one header of a packet buffer. -/
inductive Hdr where
  | ether (m : EtherMeta)
  | ip4 (m : Ipv4Meta) (pseudoCsum : Int)
  | ip6 (m : Ipv6Meta) (pseudoCsum : Int)
  | tcp (m : TcpMeta) (csumMinusHdr : Option Int)
  | udp (m : UdpMeta) (csumMinusHdr : Option Int)
  | geneve (m : EncapMeta)
deriving DecidableEq, Repr

/-- Modelled from the spec: a packet reader is the list of headers not
yet consumed. -/
abbrev Rdr := List Hdr

/-- Modelled from the spec: `Packet::parse_ether`. -/
def parse_ether : Rdr → Except ParseError (EtherMeta × Rdr)
  | .ether m :: rest => .ok (m, rest)
  | _ => .error (.badHeader "ether")

/-- Modelled from the spec: `Packet::parse_ip4`; returns the decoded
metadata and the IPv4 pseudo-header checksum. -/
def parse_ip4 : Rdr → Except ParseError ((Ipv4Meta × Int) × Rdr)
  | .ip4 m pc :: rest => .ok ((m, pc), rest)
  | _ => .error (.badHeader "ipv4")

/-- Modelled from the spec: `Packet::parse_ip6`; returns the decoded
metadata and the IPv6 pseudo-header checksum. -/
def parse_ip6 : Rdr → Except ParseError ((Ipv6Meta × Int) × Rdr)
  | .ip6 m pc :: rest => .ok ((m, pc), rest)
  | _ => .error (.badHeader "ipv6")

/-- Modelled from the spec: `Packet::parse_tcp`; returns the decoded
metadata and the checksum-minus-header of the TCP header. -/
def parse_tcp : Rdr → Except ParseError ((TcpMeta × Option Int) × Rdr)
  | .tcp m cs :: rest => .ok ((m, cs), rest)
  | _ => .error (.badHeader "tcp")

/-- Modelled from the spec: `Packet::parse_udp`. -/
def parse_udp : Rdr → Except ParseError ((UdpMeta × Option Int) × Rdr)
  | .udp m cs :: rest => .ok ((m, cs), rest)
  | _ => .error (.badHeader "udp")

/-- Modelled from the spec: `Packet::parse_geneve` consumes the UDP
encapsulation header together with the Geneve header (it is invoked on
the outer UDP protocol) and yields the Geneve metadata. -/
def parse_geneve : Rdr → Except ParseError (EncapMeta × Rdr)
  | .geneve m :: rest => .ok (m, rest)
  | _ => .error (.badHeader "geneve")

/-! ## VpcParser (oxide-vpc/src/engine/mod.rs) -/

/-- `VpcParser` from oxide-vpc/src/engine/mod.rs. -/
structure VpcParser where
  proxy_arp_enable : Bool
deriving DecidableEq, Repr

/-- `VpcParser::new`. -/
def VpcParser.new : VpcParser := ⟨false⟩

/-- The inner-ULP portion of `VpcParser::parse_inbound` (mod.rs lines
311-336): ICMP and ICMPv6 terminate parsing, TCP and UDP are parsed,
any other protocol is refused; the body checksum is the ULP
checksum-minus-header minus the IP pseudo-header checksum. -/
def parse_inbound_ulp (outer : OuterMeta) (inner_ether : EtherMeta)
    (ipm : IpMeta) (pseudo_csum : Int) (rdr : Rdr) :
    Except ParseError PacketInfo :=
  match ipm.proto with
  | .icmp =>
    .ok ⟨{ outer := outer,
           inner := { ether := inner_ether, ip := some ipm } }, none⟩
  | .icmpv6 =>
    .ok ⟨{ outer := outer,
           inner := { ether := inner_ether, ip := some ipm } }, none⟩
  | .tcp =>
    match parse_tcp rdr with
    | .error e => .error e
    | .ok ((tcpm, csum_minus_hdr), _rdr2) =>
      .ok ⟨{ outer := outer,
             inner := { ether := inner_ether, ip := some ipm,
                        ulp := some (.tcp tcpm) } },
           csum_minus_hdr.map (fun c => c - pseudo_csum)⟩
  | .udp =>
    match parse_udp rdr with
    | .error e => .error e
    | .ok ((udpm, csum_minus_hdr), _rdr2) =>
      .ok ⟨{ outer := outer,
             inner := { ether := inner_ether, ip := some ipm,
                        ulp := some (.udp udpm) } },
           csum_minus_hdr.map (fun c => c - pseudo_csum)⟩
  | proto => .error (.unexpectedProtocol proto)

/-- The inner-frame portion of `VpcParser::parse_inbound`
(mod.rs lines 279-336): parse the inner Ethernet frame, then the inner
IP header (ARP terminates parsing when proxy ARP is enabled and is
refused otherwise), then the inner ULP header via `parse_inbound_ulp`.
`outer` is the outer metadata accumulated so far. -/
def parse_inbound_inner (self : VpcParser) (outer : OuterMeta) (rdr : Rdr) :
    Except ParseError PacketInfo :=
  match parse_ether rdr with
  | .error e => .error e
  | .ok (inner_ether, rdr1) =>
    match inner_ether.ether_type with
    | .ipv4 =>
      match parse_ip4 rdr1 with
      | .error e => .error e
      | .ok ((ip4m, pseudo_csum), rdr2) =>
        parse_inbound_ulp outer inner_ether (.ip4 ip4m) pseudo_csum rdr2
    | .ipv6 =>
      match parse_ip6 rdr1 with
      | .error e => .error e
      | .ok ((ip6m, pseudo_csum), rdr2) =>
        parse_inbound_ulp outer inner_ether (.ip6 ip6m) pseudo_csum rdr2
    | .arp =>
      if self.proxy_arp_enable then
        .ok ⟨{ outer := outer, inner := { ether := inner_ether } }, none⟩
      else
        .error (.unexpectedEtherType .arp)
    | et => .error (.unexpectedEtherType et)

/-- `VpcParser::parse_inbound` (mod.rs lines 244-337). When
`proxy_arp_enable` is unset, the outer Ethernet header is parsed, any
non-IPv6 outer L3 is refused with `UnexpectedEtherType`, any non-UDP
outer L4 is refused with `UnexpectedProtocol`, then Geneve is parsed;
when it is set the whole outer section is skipped. -/
def VpcParser.parse_inbound (self : VpcParser) (rdr : Rdr) :
    Except ParseError PacketInfo :=
  if self.proxy_arp_enable then
    parse_inbound_inner self {} rdr
  else
    match parse_ether rdr with
    | .error e => .error e
    | .ok (outer_ether, rdr1) =>
      match outer_ether.ether_type with
      | .ipv6 =>
        match parse_ip6 rdr1 with
        | .error e => .error e
        | .ok ((outer_ip6, _pc), rdr2) =>
          match outer_ip6.proto with
          | .udp =>
            match parse_geneve rdr2 with
            | .error e => .error e
            | .ok (geneve_meta, rdr3) =>
              parse_inbound_inner self
                { ether := some outer_ether,
                  ip := some (.ip6 outer_ip6),
                  encap := some geneve_meta } rdr3
          | proto => .error (.unexpectedProtocol proto)
      | et => .error (.unexpectedEtherType et)

/-! ## ARP and VpcNetwork (oxide-vpc/src/engine/mod.rs) -/

/-- Modelled from the spec: a MAC address, opaque to the provided code
(only copied and compared). -/
structure MacAddr where
  val : Fin (2 ^ 48)
deriving DecidableEq, Repr

/-- Modelled from the spec: ARP operation (`opte::engine::arp::ArpOp`). -/
inductive ArpOp where
  | request
  | reply
  | unknown (v : Nat)
deriving DecidableEq, Repr

/-- Modelled from the spec: a decoded Ethernet/IPv4 ARP message
(`opte::engine::arp::ArpEthIpv4`): hardware/protocol types and lengths,
operation, and the sender/target hardware and protocol addresses. -/
structure ArpEthIpv4 where
  htype : Nat
  ptype : Nat
  hlen : Nat
  plen : Nat
  op : ArpOp
  sha : MacAddr
  spa : Ipv4Addr
  tha : MacAddr
  tpa : Ipv4Addr
deriving DecidableEq, Repr

/-- The ARP HTYPE for Ethernet (mod.rs line 60). -/
def HTYPE_ETHER : Nat := 1

/-- The Ethernet type number for IPv4
(`opte::engine::ether::ETHER_TYPE_IPV4`). -/
def ETHER_TYPE_IPV4 : Nat := 0x0800

/-- `is_arp_req` (mod.rs lines 62-66): an Ethernet/IPv4 ARP request. -/
def is_arp_req (arp : ArpEthIpv4) : Bool :=
  decide (arp.htype = HTYPE_ETHER) && decide (arp.ptype = ETHER_TYPE_IPV4)
    && decide (arp.op = ArpOp.request)

/-- `is_arp_req_for_tpa` (mod.rs lines 68-76): an ARP request whose
target protocol address equals `tpa`. -/
def is_arp_req_for_tpa (tpa : Ipv4Addr) (arp : ArpEthIpv4) : Bool :=
  if is_arp_req arp then
    if arp.tpa = tpa then true else false
  else false

/-- Modelled from the spec: the SNAT portion of the IPv4 configuration;
the provided code reads only its external IP. -/
structure SNatCfg where
  external_ip : Ipv4Addr
deriving DecidableEq, Repr

/-- Modelled from the spec: the IPv4 portion of a VPC configuration, as
read by the provided code: the gateway IP, an optional external IP and
an optional SNAT configuration. -/
structure Ipv4Cfg where
  gateway_ip : Ipv4Addr
  external_ips : Option Ipv4Addr
  snat : Option SNatCfg
deriving DecidableEq, Repr

/-- Modelled from the spec: the VPC configuration fields the provided
code reads. `ipv4` is optional: `VpcCfg::ipv4_cfg()` returns an
`Option`, which the ARP handlers unwrap. -/
structure VpcCfg where
  guest_mac : MacAddr
  gateway_mac : MacAddr
  proxy_arp_enable : Bool
  ipv4 : Option Ipv4Cfg
deriving DecidableEq, Repr

/-- `VpcCfg::ipv4_cfg`. -/
def VpcCfg.ipv4_cfg (cfg : VpcCfg) : Option Ipv4Cfg := cfg.ipv4

/-- `VpcNetwork` (mod.rs lines 54-57). -/
structure VpcNetwork where
  cfg : VpcCfg
deriving DecidableEq, Repr

/-- Modelled from the spec: the hairpin ARP reply packet produced by
`opte::engine::arp::gen_arp_reply` (not in src/): an Ethernet frame to
the requester carrying an ARP reply. Field content follows spec §8
scenario 9. -/
structure ArpReplyPkt where
  eth_dst : MacAddr
  eth_src : MacAddr
  eth_type : EtherType
  op : ArpOp
  sha : MacAddr
  spa : Ipv4Addr
  tha : MacAddr
  tpa : Ipv4Addr
deriving DecidableEq, Repr

/-- Modelled from the spec: `gen_arp_reply(eth_src, ip_src, eth_dst,
ip_dst)` synthesises an ARP reply advertising `eth_src`/`ip_src`,
addressed to the requester `eth_dst`/`ip_dst`. -/
def gen_arp_reply (eth_src : MacAddr) (ip_src : Ipv4Addr)
    (eth_dst : MacAddr) (ip_dst : Ipv4Addr) : ArpReplyPkt :=
  ⟨eth_dst, eth_src, .arp, .reply, eth_src, ip_src, eth_dst, ip_dst⟩

/-- `opte::engine::HdlPktAction`; the provided code produces `Deny` and
`Hairpin` (carrying the synthesised ARP reply). -/
inductive HdlPktAction where
  | deny
  | hairpin (pkt : ArpReplyPkt)
deriving DecidableEq, Repr

/-- `opte::engine::HdlPktError`: a static message naming the failed
handler. -/
structure HdlPktError where
  msg : String
deriving DecidableEq, Repr

/-- A parsed packet as consumed by `handle_pkt`: its metadata plus the
bytes after the inner Ethernet header. Modelled from the spec: the ARP
payload region either decodes as an `ArpEthIpv4` message
(`ArpEthIpv4::parse` succeeds, `arp_body = some _`) or it does not
(`arp_body = none`, e.g. a truncated ARP frame). -/
structure Pkt where
  meta : PacketMeta
  arp_body : Option ArpEthIpv4
deriving DecidableEq, Repr

/-- `VpcNetwork::handle_arp_out` (mod.rs lines 79-98). The reader is
positioned after the inner Ethernet header and the ARP message is
parsed (failure gives `HdlPktError("outbound ARP")`); the IPv4 config
is then unwrapped (`none` models the panic of `unwrap` on a
configuration without IPv4); an ARP request for the gateway IP is
answered with a hairpin reply from the gateway MAC, anything else is
denied. -/
def VpcNetwork.handle_arp_out (self : VpcNetwork) (pkt : Pkt) :
    Option (Except HdlPktError HdlPktAction) :=
  match pkt.arp_body with
  | none => some (.error ⟨"outbound ARP"⟩)
  | some arp =>
    match self.cfg.ipv4_cfg with
    | none => none
    | some ip_cfg =>
      if is_arp_req_for_tpa ip_cfg.gateway_ip arp then
        some (.ok (.hairpin
          (gen_arp_reply self.cfg.gateway_mac ip_cfg.gateway_ip
            arp.sha arp.spa)))
      else
        some (.ok .deny)

/-- The SNAT proxy-ARP section of `VpcNetwork::handle_arp_in`
(mod.rs lines 141-153): with proxy ARP enabled, an ARP request for the
guest's SNAT IP is answered with a hairpin reply from the guest MAC;
otherwise the fall-through verdict of the handler is `Deny`. -/
def VpcNetwork.handle_arp_in_snat (self : VpcNetwork) (arp : ArpEthIpv4)
    (ip_cfg : Ipv4Cfg) : Option (Except HdlPktError HdlPktAction) :=
  match ip_cfg.snat with
  | some snat =>
    if self.cfg.proxy_arp_enable
        && is_arp_req_for_tpa snat.external_ip arp then
      some (.ok (.hairpin
        (gen_arp_reply self.cfg.guest_mac snat.external_ip
          arp.sha arp.spa)))
    else
      some (.ok .deny)
  | none => some (.ok .deny)

/-- `VpcNetwork::handle_arp_in` (mod.rs lines 100-154). The ARP message
is parsed (failure gives `HdlPktError("inbound ARP")`); the IPv4 config
is then unwrapped (`none` models the panic); with proxy ARP enabled, a
request for the guest's external IP is answered with a hairpin reply
from the guest MAC; otherwise control falls through to the SNAT
section. -/
def VpcNetwork.handle_arp_in (self : VpcNetwork) (pkt : Pkt) :
    Option (Except HdlPktError HdlPktAction) :=
  match pkt.arp_body with
  | none => some (.error ⟨"inbound ARP"⟩)
  | some arp =>
    match self.cfg.ipv4_cfg with
    | none => none
    | some ip_cfg =>
      match ip_cfg.external_ips with
      | some external_ip =>
        if self.cfg.proxy_arp_enable
            && is_arp_req_for_tpa external_ip arp then
          some (.ok (.hairpin
            (gen_arp_reply self.cfg.guest_mac external_ip arp.sha arp.spa)))
        else
          VpcNetwork.handle_arp_in_snat self arp ip_cfg
      | none => VpcNetwork.handle_arp_in_snat self arp ip_cfg

/-- `VpcNetwork::handle_pkt` (mod.rs lines 160-175): dispatch on the
direction and the inner Ethernet type; only ARP frames are handled,
everything else is denied. -/
def VpcNetwork.handle_pkt (self : VpcNetwork) (dir : Direction)
    (pkt : Pkt) : Option (Except HdlPktError HdlPktAction) :=
  match dir, pkt.meta.inner.ether.ether_type with
  | .Out, .arp => self.handle_arp_out pkt
  | .In, .arp => self.handle_arp_in pkt
  | _, _ => some (.ok .deny)

/-! ## Router layer (oxide-vpc/src/engine/router.rs) -/

/-- Modelled from the spec: `opte::engine::headers::IpAddr`. -/
inductive IpAddr where
  | ip4 (a : Ipv4Addr)
  | ip6 (a : Ipv6Addr)
deriving DecidableEq, Repr

/-- Modelled from the spec: `opte::engine::headers::IpCidr`. -/
inductive IpCidr where
  | ip4 (c : Ipv4Cidr)
  | ip6 (c : Ipv6Cidr)
deriving DecidableEq, Repr

/-- Modelled from the spec: `IpCidr::is_default` holds of the default
route, the `0/0` CIDR of either family (spec §4.5). -/
def IpCidr.is_default : IpCidr → Bool
  | .ip4 c => decide (c.ip = Ipv4Addr.any ∧ c.prefix_len = 0)
  | .ip6 c => decide (c.ip = Ipv6Addr.any ∧ c.prefix_len = 0)

/-- `RouterTarget` from the oxide-vpc API (modelled from the spec §4.5:
drop, internet gateway, a specific IP, or a VPC subnet). -/
inductive RouterTarget where
  | drop
  | internetGateway
  | ip (a : IpAddr)
  | vpcSubnet (c : IpCidr)
deriving DecidableEq, Repr

/-- Modelled from the spec: the rendering of a `RouterTarget` used in
the `InvalidRouterEntry` error payload (`Display` for `RouterTarget`,
not in src/; the claims never inspect this text). -/
def RouterTarget.to_string : RouterTarget → List Char
  | .drop => String.toList "Drop"
  | .internetGateway => String.toList "IG"
  | .ip (.ip4 a) => String.toList "IP " ++ ipv4Display a
  | .ip (.ip6 a) => String.toList "IP " ++ ipv6Display a
  | .vpcSubnet (.ip4 c) => String.toList "Subnet " ++ ipv4CidrDisplay c
  | .vpcSubnet (.ip6 c) => String.toList "Subnet " ++ ipv6CidrDisplay c

/-- `RouterTargetInternal` (router.rs lines 66-71): the router target
without the drop variant, carried through the action metadata. -/
inductive RouterTargetInternal where
  | internetGateway
  | ip (a : IpAddr)
  | vpcSubnet (c : IpCidr)
deriving DecidableEq, Repr

/-- The action-metadata key of `RouterTargetInternal`
(router.rs line 74). -/
def RouterTargetInternal.KEY : List Char := String.toList "router-target"

/-- `RouterTargetInternal::as_meta` (router.rs lines 106-114). -/
def RouterTargetInternal.as_meta : RouterTargetInternal → List Char
  | .internetGateway => String.toList "ig"
  | .ip (.ip4 a) => String.toList "ip4=" ++ ipv4Display a
  | .ip (.ip6 a) => String.toList "ip6=" ++ ipv6Display a
  | .vpcSubnet (.ip4 c) => String.toList "sub4=" ++ ipv4CidrDisplay c
  | .vpcSubnet (.ip6 c) => String.toList "sub6=" ++ ipv6CidrDisplay c

/-- `RouterTargetInternal::from_meta` (router.rs lines 76-104): `"ig"`
decodes to the internet gateway; otherwise the string is split at the
first `=` and the tag selects the address or CIDR parser. -/
def RouterTargetInternal.from_meta (s : List Char) :
    Except (List Char) RouterTargetInternal :=
  if s = String.toList "ig" then .ok .internetGateway
  else
    match splitOnce '=' s with
    | some (tag, rest) =>
      if tag = String.toList "ip4" then
        match ipv4FromStr rest with
        | some ip4 => .ok (.ip (.ip4 ip4))
        | none => .error (String.toList "bad ip4 addr")
      else if tag = String.toList "ip6" then
        match ipv6FromStr rest with
        | some ip6 => .ok (.ip (.ip6 ip6))
        | none => .error (String.toList "bad ip6 addr")
      else if tag = String.toList "sub4" then
        match ipv4CidrFromStr rest with
        | some cidr4 => .ok (.vpcSubnet (.ip4 cidr4))
        | none => .error (String.toList "bad ip4 cidr")
      else if tag = String.toList "sub6" then
        match ipv6CidrFromStr rest with
        | some cidr6 => .ok (.vpcSubnet (.ip6 cidr6))
        | none => .error (String.toList "bad ip6 cidr")
      else .error (String.toList "bad router target" ++ s)
    | none => .error (String.toList "bad router target" ++ s)

/-- `prefix_len_to_priority` (router.rs lines 168-177): the priority of
a router rule is `max_prefix_len - prefix_len + 10`, with
`max_prefix_len` 32 for IPv4 and 128 for IPv6. -/
def prefix_len_to_priority (cidr : IpCidr) : Nat :=
  match cidr with
  | .ip4 ipv4 => (32 - ipv4.prefix_len.val) + 10
  | .ip6 ipv6 => (128 - ipv6.prefix_len.val) + 10

/-- `valid_router_dest_target_pair` (router.rs lines 199-216): anything
can be dropped; an IP or VPC-subnet target must match the destination
family; only the default destination may target the internet gateway. -/
def valid_router_dest_target_pair (dest : IpCidr) (target : RouterTarget) :
    Bool :=
  (match dest, target with
   | _, .drop => true
   | .ip4 _, .ip (.ip4 _) => true
   | .ip4 _, .vpcSubnet (.ip4 _) => true
   | .ip6 _, .ip (.ip6 _) => true
   | .ip6 _, .vpcSubnet (.ip6 _) => true
   | _, _ => false)
  || ((match target with
       | .internetGateway => true
       | _ => false)
      && dest.is_default)

/-- Modelled from the spec: `Ipv4AddrMatch` — the only constructor the
router uses is the prefix match. -/
inductive Ipv4AddrMatch where
  | matchPrefix (c : Ipv4Cidr)
deriving DecidableEq, Repr

/-- Modelled from the spec: `Ipv6AddrMatch`. -/
inductive Ipv6AddrMatch where
  | matchPrefix (c : Ipv6Cidr)
deriving DecidableEq, Repr

/-- Modelled from the spec: the rule predicates the router constructs
(`Predicate::InnerDstIp4` / `Predicate::InnerDstIp6`). -/
inductive Predicate where
  | innerDstIp4 (ms : List Ipv4AddrMatch)
  | innerDstIp6 (ms : List Ipv6AddrMatch)
deriving DecidableEq, Repr

/-- `RouterAction` (router.rs lines 361-371): a `MetaAction` carrying
the internal router target. -/
structure RouterAction where
  target : RouterTargetInternal
deriving DecidableEq, Repr

/-- `RouterAction::new`. -/
def RouterAction.new (target : RouterTargetInternal) : RouterAction :=
  ⟨target⟩

/-- Modelled from the spec: the rule actions the router constructs
(`Action::Deny` and `Action::Meta`). -/
inductive RuleAction where
  | deny
  | meta (a : RouterAction)
deriving DecidableEq, Repr

/-- Modelled from the spec: a finalized rule as built by the router:
`Rule::new(priority, action)` followed by `add_predicate(predicate)`
and `finalize()`. -/
structure RouterRule where
  priority : Nat
  predicates : List Predicate
  action : RuleAction
deriving DecidableEq, Repr

/-- `OpteError`; the only variant the router code constructs is
`InvalidRouterEntry { dest, target }` with the target rendered to
text. -/
inductive OpteError where
  | invalidRouterEntry (dest : IpCidr) (target : List Char)
deriving DecidableEq, Repr

/-- `make_rule` (router.rs lines 218-296): validate the pair, build the
destination-prefix predicate, pair it with `Deny` for a drop target or
with a `Meta` action carrying the internal target otherwise, and set
the prefix-length priority. -/
def make_rule (dest : IpCidr) (target : RouterTarget) :
    Except OpteError RouterRule :=
  if !valid_router_dest_target_pair dest target then
    .error (.invalidRouterEntry dest target.to_string)
  else
    let pred_action : Predicate × RuleAction :=
      match target with
      | .drop =>
        (match dest with
         | .ip4 ip4 => Predicate.innerDstIp4 [.matchPrefix ip4]
         | .ip6 ip6 => Predicate.innerDstIp6 [.matchPrefix ip6],
         RuleAction.deny)
      | .internetGateway =>
        (match dest with
         | .ip4 ip4 => Predicate.innerDstIp4 [.matchPrefix ip4]
         | .ip6 ip6 => Predicate.innerDstIp6 [.matchPrefix ip6],
         RuleAction.meta (RouterAction.new .internetGateway))
      | .ip ip =>
        (match dest with
         | .ip4 ip4 => Predicate.innerDstIp4 [.matchPrefix ip4]
         | .ip6 ip6 => Predicate.innerDstIp6 [.matchPrefix ip6],
         RuleAction.meta (RouterAction.new (.ip ip)))
      | .vpcSubnet vpc =>
        (match dest with
         | .ip4 ip4 => Predicate.innerDstIp4 [.matchPrefix ip4]
         | .ip6 ip6 => Predicate.innerDstIp6 [.matchPrefix ip6],
         RuleAction.meta (RouterAction.new (.vpcSubnet vpc)))
    .ok ⟨prefix_len_to_priority dest, [pred_action.1], pred_action.2⟩

/-- Modelled from the spec: the router layer's outbound rule list of a
port (`Layer` rule state relevant to `router::add_entry`). -/
structure RouterPortState where
  out_rules : List RouterRule
deriving DecidableEq, Repr

/-- Modelled from the spec: `Port::add_rule` inserts a rule into the
layer's list keeping it sorted by priority ascending, ties broken by
insertion order (spec §3, §4.2). -/
def insertRule (rules : List RouterRule) (r : RouterRule) :
    List RouterRule :=
  match rules with
  | [] => [r]
  | x :: xs => if x.priority ≤ r.priority then x :: insertRule xs r
               else r :: x :: xs

/-- `router::add_entry` (router.rs lines 322-330): build the rule via
`make_rule` and add it to the router layer's outbound rules; a
`make_rule` failure propagates before any mutation, leaving the state
unchanged. -/
def add_entry (st : RouterPortState) (dest : IpCidr)
    (target : RouterTarget) : Except OpteError Unit × RouterPortState :=
  match make_rule dest target with
  | .error e => (.error e, st)
  | .ok rule => (.ok (), ⟨insertRule st.out_rules rule⟩)

/-- Modelled from the spec: the per-packet action metadata
(`ActionMeta`), a string-keyed map of strings; `insert` replaces any
existing binding of the key. -/
def ActionMeta := List (List Char × List Char)

/-- Modelled from the spec: `ActionMeta::insert`. -/
def ActionMeta.insert (m : ActionMeta) (k v : List Char) : ActionMeta :=
  (k, v) :: List.filter (fun p => p.1 ≠ k) m

/-- Modelled from the spec: the canonical 5-tuple flow key
(`InnerFlowId`, spec §3); `mod_meta` ignores it. -/
structure InnerFlowId where
  proto : Protocol
  src_ip : IpAddr
  src_port : Nat
  dst_ip : IpAddr
  dst_port : Nat

/-- `AllowOrDeny` from `opte::engine::rule`. -/
inductive AllowOrDeny (α : Type) where
  | allow (v : α)
  | deny
deriving DecidableEq, Repr

/-- `RouterAction::mod_meta` (router.rs lines 384-395): insert the
target under the `"router-target"` key and allow. Returns the
`ModMetaResult` together with the updated metadata. -/
def RouterAction.mod_meta (self : RouterAction) (_flow_id : InnerFlowId)
    (meta : ActionMeta) :
    Except (List Char) (AllowOrDeny Unit) × ActionMeta :=
  (.ok (.allow ()),
   meta.insert RouterTargetInternal.KEY self.target.as_meta)

/-! ## FlowTable expiry (opte::engine::flow_table)

The `FlowTable` implementation is not part of the provided sources
(only its tests are); it is modelled from the spec: a bounded map whose
entries carry a `last_hit` instant, with a single idle-expiry horizon
defaulting to `FLOW_DEF_EXPIRE_SECS` (60 seconds); `expire(now)`
removes the entries with `now - last_hit ≥ expiry`. Instants are
modelled as natural numbers of seconds. -/

/-- Modelled from the spec: the default idle-expiry horizon
(`FLOW_DEF_EXPIRE_SECS`), 60 seconds. -/
def FLOW_DEF_EXPIRE_SECS : Nat := 60

/-- Modelled from the spec: a flow-table entry's bookkeeping (`hits`
and `last_hit`); the cached value is irrelevant to expiry and is
abstracted as a key. -/
structure FlowEntry where
  key : Nat
  hits : Nat
  last_hit : Nat
deriving DecidableEq, Repr

/-- Modelled from the spec: a flow table with its idle-expiry horizon
in seconds. -/
structure FlowTable where
  entries : List FlowEntry
  expiry_secs : Nat := FLOW_DEF_EXPIRE_SECS
deriving DecidableEq, Repr

/-- Modelled from the spec: `FlowTable::expire(now)` removes exactly
the entries with `now - last_hit ≥ expiry`. -/
def FlowTable.expire (ft : FlowTable) (now : Nat) : FlowTable :=
  { ft with
    entries := ft.entries.filter
      (fun e => !decide (now - e.last_hit ≥ ft.expiry_secs)) }

/-- Number of entries (`FlowTable::len`). -/
def FlowTable.len (ft : FlowTable) : Nat := ft.entries.length

/-! ## Port lifecycle (opte::engine::port)

The `Port` implementation is not part of the provided sources (only its
integration tests are); it is modelled from the spec §3/§4.6: a port
holds a lifecycle state, an ordered list of layers each with two rule
lists and two flow tables, and two UFT flow tables. In `Ready`,
`process` fails with `BadState` and touches nothing; `reset` clears
every flow table, retains every rule, and returns the port to `Ready`.
The `Running`-state behaviour of `process` is beyond the provided
sources and is taken as a parameter. -/

/-- Modelled from the spec: the port lifecycle states. -/
inductive PortState where
  | ready
  | running
deriving DecidableEq, Repr

/-- Modelled from the spec: one layer's rule and flow state. -/
structure LayerState where
  rules_in : List RouterRule
  rules_out : List RouterRule
  flows_in : FlowTable
  flows_out : FlowTable
deriving DecidableEq, Repr

/-- Modelled from the spec: the port state relevant to the lifecycle
claims. -/
structure PortModel where
  state : PortState
  layers : List LayerState
  uft_in : FlowTable
  uft_out : FlowTable
deriving DecidableEq, Repr

/-- Modelled from the spec: `ProcessError`; `BadState` is returned when
`process` is invoked outside `Running`. -/
inductive ProcessError where
  | badState
deriving DecidableEq, Repr

/-- Modelled from the spec: the successful `process` outcomes. -/
inductive ProcessResult where
  | modified
  | hairpin
  | dropped
deriving DecidableEq, Repr

/-- Modelled from the spec: `PortBuilder::create` produces a port in
the `Ready` state with the configured layers and empty flow tables. -/
def PortModel.build (layer_rules : List (List RouterRule × List RouterRule)) :
    PortModel :=
  { state := .ready,
    layers := layer_rules.map
      (fun p => ⟨p.1, p.2, ⟨[], FLOW_DEF_EXPIRE_SECS⟩,
                 ⟨[], FLOW_DEF_EXPIRE_SECS⟩⟩),
    uft_in := ⟨[], FLOW_DEF_EXPIRE_SECS⟩,
    uft_out := ⟨[], FLOW_DEF_EXPIRE_SECS⟩ }

/-- Modelled from the spec: `Port::start` moves the port to `Running`. -/
def PortModel.start (p : PortModel) : PortModel :=
  { p with state := .running }

/-- Modelled from the spec: `Port::reset` clears all flow tables (rules
retained) and returns the port to `Ready`. -/
def PortModel.reset (p : PortModel) : PortModel :=
  { state := .ready,
    layers := p.layers.map
      (fun l => { l with flows_in := { l.flows_in with entries := [] },
                         flows_out := { l.flows_out with entries := [] } }),
    uft_in := { p.uft_in with entries := [] },
    uft_out := { p.uft_out with entries := [] } }

/-- Modelled from the spec: `Port::process`. In `Ready` it fails with
`BadState` and leaves the port untouched; in `Running` it defers to the
full datapath, which is outside the provided sources and is passed in
as `run`. -/
def PortModel.process (p : PortModel)
    (run : PortModel → ProcessResult × PortModel) :
    Except ProcessError ProcessResult × PortModel :=
  match p.state with
  | .ready => (.error .badState, p)
  | .running =>
    match run p with
    | (r, p2) => (.ok r, p2)

/-- Total number of flow-table entries across a port's layers and UFT,
for the given direction (`Port::num_flows` summed as in the lifecycle
test). -/
def PortModel.layer_flows_out (p : PortModel) : List Nat :=
  p.layers.map (fun l => l.flows_out.len)

/-- Per-layer inbound flow counts. -/
def PortModel.layer_flows_in (p : PortModel) : List Nat :=
  p.layers.map (fun l => l.flows_in.len)

/-- Per-layer outbound rule counts (`Port::num_rules`). -/
def PortModel.layer_rules_out (p : PortModel) : List (List RouterRule) :=
  p.layers.map (fun l => l.rules_out)

/-- Per-layer inbound rule lists. -/
def PortModel.layer_rules_in (p : PortModel) : List (List RouterRule) :=
  p.layers.map (fun l => l.rules_in)

/-! ## Geneve VNI (opte-api/src/encap.rs) -/

/-- `Vni` (encap.rs lines 27-34): a 24-bit virtual network identifier
stored as three network-order bytes. -/
structure Vni where
  inner0 : Fin 256
  inner1 : Fin 256
  inner2 : Fin 256
deriving DecidableEq, Repr

/-- `VNI_MAX` (encap.rs line 72). -/
def VNI_MAX : Nat := 0x00FFFFFF

/-- `Vni::new` (encap.rs lines 91-99): reject values above the 24-bit
maximum, otherwise store the low three big-endian bytes. `val` is a
`u32`, i.e. a natural number below `2^32`. -/
def Vni.new (val : Nat) : Except (List Char) Vni :=
  if val > VNI_MAX then
    .error (String.toList "VNI value exceeds maximum: " ++ natDec val)
  else
    .ok ⟨⟨val / 65536 % 256, Nat.mod_lt _ (by omega)⟩,
         ⟨val / 256 % 256, Nat.mod_lt _ (by omega)⟩,
         ⟨val % 256, Nat.mod_lt _ (by omega)⟩⟩

/-- `u32::from(Vni)` (encap.rs lines 42-47):
`u32::from_be_bytes([0, inner[0], inner[1], inner[2]])`. -/
def Vni.toU32 (vni : Vni) : Nat :=
  vni.inner0.val * 65536 + vni.inner1.val * 256 + vni.inner2.val

/-- `Vni::as_u32` (encap.rs lines 75-77): the same decoding as
`u32::from`. -/
def Vni.as_u32 (vni : Vni) : Nat := vni.toU32

/-- Decidable equality for `Except`, used to evaluate concrete results. -/
instance {ε α : Type} [DecidableEq ε] [DecidableEq α] :
    DecidableEq (Except ε α) := fun x y =>
  match x, y with
  | .ok a, .ok b =>
    if h : a = b then .isTrue (by rw [h]) else .isFalse (by simp [h])
  | .error a, .error b =>
    if h : a = b then .isTrue (by rw [h]) else .isFalse (by simp [h])
  | .ok _, .error _ => .isFalse (by simp)
  | .error _, .ok _ => .isFalse (by simp)

/-- A trivial `Running`-state behaviour used to instantiate the
`process` parameter on concrete ports. -/
def idRun : PortModel → ProcessResult × PortModel := fun p => (.modified, p)

/-! ## Lemmas: decimal and hexadecimal rendering round-trips -/

theorem digitVal_digitChar (n : Nat) (h : n < 10) :
    digitVal (Nat.digitChar n) = n := by
  interval_cases n <;> decide

theorem isDigit_digitChar (n : Nat) (h : n < 10) :
    (Nat.digitChar n).isDigit = true := by
  interval_cases n <;> decide

theorem hexVal_digitChar (n : Nat) (h : n < 16) :
    hexVal (Nat.digitChar n) = n := by
  interval_cases n <;> decide

theorem isHexLower_digitChar (n : Nat) (h : n < 16) :
    isHexLower (Nat.digitChar n) = true := by
  interval_cases n <;> decide

theorem natDec_ne_nil (n : Nat) : natDec n ≠ [] := by
  rw [natDec]
  split <;> simp

theorem natHex_ne_nil (n : Nat) : natHex n ≠ [] := by
  rw [natHex]
  split <;> simp

theorem natDec_all_digits (n : Nat) : ∀ c ∈ natDec n, c.isDigit = true := by
  induction n using Nat.strong_induction_on with
  | _ n ih =>
    rw [natDec]
    split
    · rename_i h
      intro c hc
      rw [List.mem_singleton] at hc
      subst hc
      exact isDigit_digitChar n h
    · rename_i h
      intro c hc
      rw [List.mem_append] at hc
      rcases hc with h1 | h2
      · exact ih (n / 10) (by omega) c h1
      · rw [List.mem_singleton] at h2
        subst h2
        exact isDigit_digitChar _ (Nat.mod_lt _ (by omega))

theorem natHex_all_hex (n : Nat) : ∀ c ∈ natHex n, isHexLower c = true := by
  induction n using Nat.strong_induction_on with
  | _ n ih =>
    rw [natHex]
    split
    · rename_i h
      intro c hc
      rw [List.mem_singleton] at hc
      subst hc
      exact isHexLower_digitChar n h
    · rename_i h
      intro c hc
      rw [List.mem_append] at hc
      rcases hc with h1 | h2
      · exact ih (n / 16) (by omega) c h1
      · rw [List.mem_singleton] at h2
        subst h2
        exact isHexLower_digitChar _ (Nat.mod_lt _ (by omega))

theorem decValue_append (xs : List Char) (c : Char) :
    decValue (xs ++ [c]) = decValue xs * 10 + digitVal c := by
  simp [decValue, List.foldl_append]

theorem hexValue_append (xs : List Char) (c : Char) :
    hexValue (xs ++ [c]) = hexValue xs * 16 + hexVal c := by
  simp [hexValue, List.foldl_append]

theorem decValue_natDec (n : Nat) : decValue (natDec n) = n := by
  induction n using Nat.strong_induction_on with
  | _ n ih =>
    rw [natDec]
    split
    · rename_i h
      simp [decValue, digitVal_digitChar n h]
    · rename_i h
      rw [decValue_append, ih (n / 10) (by omega),
          digitVal_digitChar _ (Nat.mod_lt _ (by omega))]
      omega

theorem hexValue_natHex (n : Nat) : hexValue (natHex n) = n := by
  induction n using Nat.strong_induction_on with
  | _ n ih =>
    rw [natHex]
    split
    · rename_i h
      simp [hexValue, hexVal_digitChar n h]
    · rename_i h
      rw [hexValue_append, ih (n / 16) (by omega),
          hexVal_digitChar _ (Nat.mod_lt _ (by omega))]
      omega

theorem parseDec_natDec (n : Nat) : parseDec (natDec n) = some n := by
  unfold parseDec
  rw [if_pos ⟨natDec_ne_nil n, natDec_all_digits n⟩, decValue_natDec]

theorem parseHex_natHex (n : Nat) : parseHex (natHex n) = some n := by
  unfold parseHex
  rw [if_pos ⟨natHex_ne_nil n, natHex_all_hex n⟩, hexValue_natHex]

theorem not_mem_natDec (c : Char) (n : Nat) (h : c.isDigit = false) :
    c ∉ natDec n := by
  intro hm
  rw [natDec_all_digits n c hm] at h
  exact Bool.noConfusion h

theorem not_mem_natHex (c : Char) (n : Nat) (h : isHexLower c = false) :
    c ∉ natHex n := by
  intro hm
  rw [natHex_all_hex n c hm] at h
  exact Bool.noConfusion h

/-! ## Lemmas: splitting -/

theorem splitChar_ne_nil (sep : Char) (l : List Char) :
    splitChar sep l ≠ [] := by
  induction l with
  | nil => simp [splitChar]
  | cons c rest ih =>
    rw [splitChar]
    cases hs : splitChar sep rest with
    | nil => simp
    | cons g gs =>
      by_cases hc : c = sep <;> simp [hc]

theorem splitChar_not_mem (sep : Char) (l : List Char) (h : sep ∉ l) :
    splitChar sep l = [l] := by
  induction l with
  | nil => rfl
  | cons c rest ih =>
    have hc : c ≠ sep := fun e => h (by rw [e]; exact List.mem_cons_self _ _)
    have hrest : sep ∉ rest := fun hm => h (List.mem_cons_of_mem _ hm)
    rw [splitChar, ih hrest]
    simp [hc]

theorem splitChar_append (sep : Char) (a b : List Char) (h : sep ∉ a) :
    splitChar sep (a ++ sep :: b) = a :: splitChar sep b := by
  induction a with
  | nil =>
    rw [List.nil_append, splitChar]
    cases hs : splitChar sep b with
    | nil => exact absurd hs (splitChar_ne_nil sep b)
    | cons g gs => simp
  | cons c a ih =>
    have hc : c ≠ sep := fun e => h (by rw [e]; exact List.mem_cons_self _ _)
    have ha : sep ∉ a := fun hm => h (List.mem_cons_of_mem _ hm)
    rw [List.cons_append, splitChar, ih ha]
    simp [hc]

theorem splitOnce_append (sep : Char) (a b : List Char) (h : sep ∉ a) :
    splitOnce sep (a ++ sep :: b) = some (a, b) := by
  induction a with
  | nil => simp [splitOnce]
  | cons c a ih =>
    have hc : c ≠ sep := fun e => h (by rw [e]; exact List.mem_cons_self _ _)
    have ha : sep ∉ a := fun hm => h (List.mem_cons_of_mem _ hm)
    rw [List.cons_append, splitOnce]
    simp [hc, ih ha]

/-! ## Lemmas: address and CIDR text round-trips -/

theorem mem_ipv4Display (a : Ipv4Addr) (c : Char) (h : c ∈ ipv4Display a) :
    c.isDigit = true ∨ c = '.' := by
  simp only [ipv4Display, List.mem_append, List.mem_cons] at h
  rcases h with h | h | h | h | h | h | h <;>
    first
      | exact Or.inl (natDec_all_digits _ c h)
      | exact Or.inr h

theorem mem_ipv6Display (a : Ipv6Addr) (c : Char) (h : c ∈ ipv6Display a) :
    isHexLower c = true ∨ c = ':' := by
  simp only [ipv6Display, List.mem_append, List.mem_cons] at h
  rcases h with h | h | h | h | h | h | h | h | h | h | h | h | h | h | h <;>
    first
      | exact Or.inl (natHex_all_hex _ c h)
      | exact Or.inr h

theorem ipv4FromStr_display (a : Ipv4Addr) :
    ipv4FromStr (ipv4Display a) = some a := by
  unfold ipv4FromStr
  rw [ipv4Display,
      splitChar_append _ _ _ (not_mem_natDec '.' _ (by decide)),
      splitChar_append _ _ _ (not_mem_natDec '.' _ (by decide)),
      splitChar_append _ _ _ (not_mem_natDec '.' _ (by decide)),
      splitChar_not_mem _ _ (not_mem_natDec '.' _ (by decide))]
  simp only [parseDec_natDec]
  rw [dif_pos ⟨a.o0.isLt, a.o1.isLt, a.o2.isLt, a.o3.isLt⟩]

theorem ipv6FromStr_display (a : Ipv6Addr) :
    ipv6FromStr (ipv6Display a) = some a := by
  unfold ipv6FromStr
  rw [ipv6Display,
      splitChar_append _ _ _ (not_mem_natHex ':' _ (by decide)),
      splitChar_append _ _ _ (not_mem_natHex ':' _ (by decide)),
      splitChar_append _ _ _ (not_mem_natHex ':' _ (by decide)),
      splitChar_append _ _ _ (not_mem_natHex ':' _ (by decide)),
      splitChar_append _ _ _ (not_mem_natHex ':' _ (by decide)),
      splitChar_append _ _ _ (not_mem_natHex ':' _ (by decide)),
      splitChar_append _ _ _ (not_mem_natHex ':' _ (by decide)),
      splitChar_not_mem _ _ (not_mem_natHex ':' _ (by decide))]
  simp only [parseHex_natHex]
  rw [dif_pos ⟨a.g0.isLt, a.g1.isLt, a.g2.isLt, a.g3.isLt,
               a.g4.isLt, a.g5.isLt, a.g6.isLt, a.g7.isLt⟩]

theorem slash_not_mem_ipv4Display (a : Ipv4Addr) : '/' ∉ ipv4Display a := by
  intro hm
  rcases mem_ipv4Display a _ hm with h | h <;> exact absurd h (by decide)

theorem slash_not_mem_ipv6Display (a : Ipv6Addr) : '/' ∉ ipv6Display a := by
  intro hm
  rcases mem_ipv6Display a _ hm with h | h <;> exact absurd h (by decide)

theorem ipv4CidrFromStr_display (c : Ipv4Cidr) :
    ipv4CidrFromStr (ipv4CidrDisplay c) = some c := by
  unfold ipv4CidrFromStr
  rw [ipv4CidrDisplay, splitOnce_append _ _ _ (slash_not_mem_ipv4Display c.ip)]
  simp only [ipv4FromStr_display, parseDec_natDec]
  rw [dif_pos c.prefix_len.isLt]

theorem ipv6CidrFromStr_display (c : Ipv6Cidr) :
    ipv6CidrFromStr (ipv6CidrDisplay c) = some c := by
  unfold ipv6CidrFromStr
  rw [ipv6CidrDisplay, splitOnce_append _ _ _ (slash_not_mem_ipv6Display c.ip)]
  simp only [ipv6FromStr_display, parseDec_natDec]
  rw [dif_pos c.prefix_len.isLt]

/-! ## Lemmas: router-target metadata round-trip -/

theorem tag_append_ne_ig (tag : List Char) (rest : List Char)
    (h : 3 ≤ tag.length) : tag ++ rest ≠ String.toList "ig" := by
  intro e
  have hl := congrArg List.length e
  rw [List.length_append] at hl
  simp [String.toList] at hl
  omega

theorem from_meta_as_meta_ig :
    RouterTargetInternal.from_meta
      (RouterTargetInternal.as_meta .internetGateway) = .ok .internetGateway := by
  rfl

theorem from_meta_as_meta_ip4 (a : Ipv4Addr) :
    RouterTargetInternal.from_meta
      (RouterTargetInternal.as_meta (.ip (.ip4 a))) = .ok (.ip (.ip4 a)) := by
  have heq : RouterTargetInternal.as_meta (.ip (.ip4 a))
      = String.toList "ip4" ++ '=' :: ipv4Display a := rfl
  rw [heq]
  unfold RouterTargetInternal.from_meta
  rw [if_neg (tag_append_ne_ig _ _ (by decide)),
      splitOnce_append _ _ _ (by decide)]
  simp [ipv4FromStr_display]

theorem from_meta_as_meta_ip6 (a : Ipv6Addr) :
    RouterTargetInternal.from_meta
      (RouterTargetInternal.as_meta (.ip (.ip6 a))) = .ok (.ip (.ip6 a)) := by
  have heq : RouterTargetInternal.as_meta (.ip (.ip6 a))
      = String.toList "ip6" ++ '=' :: ipv6Display a := rfl
  rw [heq]
  unfold RouterTargetInternal.from_meta
  rw [if_neg (tag_append_ne_ig _ _ (by decide)),
      splitOnce_append _ _ _ (by decide)]
  simp [ipv6FromStr_display]

theorem from_meta_as_meta_sub4 (c : Ipv4Cidr) :
    RouterTargetInternal.from_meta
      (RouterTargetInternal.as_meta (.vpcSubnet (.ip4 c)))
      = .ok (.vpcSubnet (.ip4 c)) := by
  have heq : RouterTargetInternal.as_meta (.vpcSubnet (.ip4 c))
      = String.toList "sub4" ++ '=' :: ipv4CidrDisplay c := rfl
  rw [heq]
  unfold RouterTargetInternal.from_meta
  rw [if_neg (tag_append_ne_ig _ _ (by decide)),
      splitOnce_append _ _ _ (by decide)]
  simp [ipv4CidrFromStr_display]

theorem from_meta_as_meta_sub6 (c : Ipv6Cidr) :
    RouterTargetInternal.from_meta
      (RouterTargetInternal.as_meta (.vpcSubnet (.ip6 c)))
      = .ok (.vpcSubnet (.ip6 c)) := by
  have heq : RouterTargetInternal.as_meta (.vpcSubnet (.ip6 c))
      = String.toList "sub6" ++ '=' :: ipv6CidrDisplay c := rfl
  rw [heq]
  unfold RouterTargetInternal.from_meta
  rw [if_neg (tag_append_ne_ig _ _ (by decide)),
      splitOnce_append _ _ _ (by decide)]
  simp [ipv6CidrFromStr_display]

/-! ## Claim theorems -/

/-- C10: for every `RouterTargetInternal` value (internet gateway, IP
of either family, VPC subnet of either family),
`RouterTargetInternal::from_meta(t.as_meta()) = Ok(t)` — the
`"router-target"` metadata string written by the router layer decodes
back to the identical target. -/
theorem router_target_meta_round_trip (t : RouterTargetInternal) :
    RouterTargetInternal.from_meta t.as_meta = .ok t := by
  cases t with
  | internetGateway => exact from_meta_as_meta_ig
  | ip a =>
    cases a with
    | ip4 x => exact from_meta_as_meta_ip4 x
    | ip6 x => exact from_meta_as_meta_ip6 x
  | vpcSubnet c =>
    cases c with
    | ip4 x => exact from_meta_as_meta_sub4 x
    | ip6 x => exact from_meta_as_meta_sub6 x

/-- C9: for every `n` in `[0, 2^24)`, `Vni::new(n)` succeeds and
`u32::from(Vni::new(n)) = n`, with the VNI stored as three
network-order bytes decoded as `from_be_bytes([0, inner0, inner1,
inner2])`; `Vni::new` rejects every `u32` value above `0x00FF_FFFF`. -/
theorem vni_round_trip (n : Nat) :
    (n ≤ VNI_MAX →
       ∃ v, Vni.new n = .ok v ∧ v.toU32 = n ∧
         v.toU32 = v.inner0.val * 65536 + v.inner1.val * 256
           + v.inner2.val) ∧
    (n < 2 ^ 32 → VNI_MAX < n →
       Vni.new n = .error
         (String.toList "VNI value exceeds maximum: " ++ natDec n)) := by
  constructor
  · intro h
    have hn : n < 16777216 := by
      unfold VNI_MAX at h
      omega
    refine ⟨⟨⟨n / 65536 % 256, Nat.mod_lt _ (by omega)⟩,
             ⟨n / 256 % 256, Nat.mod_lt _ (by omega)⟩,
             ⟨n % 256, Nat.mod_lt _ (by omega)⟩⟩, ?_, ?_, rfl⟩
    · unfold Vni.new
      rw [if_neg (by omega)]
    · show n / 65536 % 256 * 65536 + n / 256 % 256 * 256 + n % 256 = n
      omega
  · intro _ h
    unfold Vni.new
    rw [if_pos (by omega)]

/-- C9 witness: the concrete VNI 7777 (the boundary-services VNI of the
test configuration) round-trips. -/
theorem vni_round_trip_witness :
    7777 ≤ VNI_MAX ∧
    ∃ v, Vni.new 7777 = .ok v ∧ v.toU32 = 7777 ∧
      v.toU32 = v.inner0.val * 65536 + v.inner1.val * 256 + v.inner2.val :=
  ⟨by decide, (vni_round_trip 7777).1 (by decide)⟩

/-- C6: flow-table expiry removes exactly the entries with
`now - last_hit ≥ expiry`; with the default horizon of 60 seconds, an
entry whose last hit is exactly the horizon ago is removed and a
strictly younger entry is retained. -/
theorem flow_table_expire_spec (ft : FlowTable) (now : Nat)
    (e : FlowEntry) :
    (e ∈ (ft.expire now).entries ↔
       e ∈ ft.entries ∧ now - e.last_hit < ft.expiry_secs) ∧
    (ft.expiry_secs = FLOW_DEF_EXPIRE_SECS → e ∈ ft.entries →
       ((now = e.last_hit + FLOW_DEF_EXPIRE_SECS →
           e ∉ (ft.expire now).entries) ∧
        (now < e.last_hit + FLOW_DEF_EXPIRE_SECS →
           e ∈ (ft.expire now).entries))) := by
  have hmem : e ∈ (ft.expire now).entries ↔
      e ∈ ft.entries ∧ now - e.last_hit < ft.expiry_secs := by
    simp [FlowTable.expire, List.mem_filter, Nat.not_le]
  refine ⟨hmem, fun hexp hmem0 => ⟨fun hnow => ?_, fun hnow => ?_⟩⟩
  · rw [hmem]
    rintro ⟨-, hlt⟩
    rw [FLOW_DEF_EXPIRE_SECS] at hexp hnow
    omega
  · rw [hmem]
    refine ⟨hmem0, ?_⟩
    rw [FLOW_DEF_EXPIRE_SECS] at hexp hnow
    omega

/-- C6 witness: with the default 60-second horizon, the entry last hit
at second 100 is gone from `expire 160` and present in `expire 159`. -/
theorem flow_table_expire_spec_witness :
    (FlowEntry.mk 0 0 100) ∉
      ((FlowTable.mk [⟨0, 0, 100⟩] 60).expire 160).entries ∧
    (FlowEntry.mk 0 0 100) ∈
      ((FlowTable.mk [⟨0, 0, 100⟩] 60).expire 159).entries :=
  ⟨((flow_table_expire_spec ⟨[⟨0, 0, 100⟩], 60⟩ 160 ⟨0, 0, 100⟩).2
      (by decide) (by decide)).1 (by decide),
   ((flow_table_expire_spec ⟨[⟨0, 0, 100⟩], 60⟩ 159 ⟨0, 0, 100⟩).2
      (by decide) (by decide)).2 (by decide)⟩

/-- C7: `process` on a port in the `Ready` state — newly built or after
`reset` — fails with `BadState` and installs no flows (the port is
returned unchanged); `reset` clears every flow table while leaving
every layer's rule lists unchanged. -/
theorem port_lifecycle_spec (p : PortModel)
    (run : PortModel → ProcessResult × PortModel)
    (lrs : List (List RouterRule × List RouterRule)) :
    ((PortModel.build lrs).state = .ready) ∧
    ((PortModel.build lrs).process run
       = (.error .badState, PortModel.build lrs)) ∧
    (p.state = .ready → p.process run = (.error .badState, p)) ∧
    ((p.reset).state = .ready) ∧
    ((p.reset).process run = (.error .badState, p.reset)) ∧
    (∀ n ∈ (p.reset).layer_flows_in, n = 0) ∧
    (∀ n ∈ (p.reset).layer_flows_out, n = 0) ∧
    ((p.reset).uft_in.len = 0) ∧
    ((p.reset).uft_out.len = 0) ∧
    ((p.reset).layer_rules_in = p.layer_rules_in) ∧
    ((p.reset).layer_rules_out = p.layer_rules_out) := by
  refine ⟨rfl, rfl, fun h => ?_, rfl, rfl, ?_, ?_, rfl, rfl, ?_, ?_⟩
  · unfold PortModel.process
    rw [h]
  · intro n hn
    simp [PortModel.layer_flows_in, PortModel.reset, FlowTable.len,
          List.mem_map] at hn
    exact hn.2.symm
  · intro n hn
    simp [PortModel.layer_flows_out, PortModel.reset, FlowTable.len,
          List.mem_map] at hn
    exact hn.2.symm
  · simp [PortModel.layer_rules_in, PortModel.reset, List.map_map]
  · simp [PortModel.layer_rules_out, PortModel.reset, List.map_map]

/-- C7 witness: a concrete ready port with one layer holding a rule and
a flow: `process` fails with `BadState` leaving it unchanged, and after
`reset` of its running version the flow is gone while the rule stays. -/
theorem port_lifecycle_spec_witness :
    PortModel.process
        ⟨.ready, [⟨[], [⟨18, [], .deny⟩], ⟨[], 60⟩, ⟨[⟨0, 1, 5⟩], 60⟩⟩],
         ⟨[], 60⟩, ⟨[], 60⟩⟩ idRun
      = (.error .badState,
         ⟨.ready, [⟨[], [⟨18, [], .deny⟩], ⟨[], 60⟩, ⟨[⟨0, 1, 5⟩], 60⟩⟩],
          ⟨[], 60⟩, ⟨[], 60⟩⟩) ∧
    (PortModel.reset
        ⟨.running, [⟨[], [⟨18, [], .deny⟩], ⟨[], 60⟩, ⟨[⟨0, 1, 5⟩], 60⟩⟩],
         ⟨[], 60⟩, ⟨[], 60⟩⟩).layer_rules_out
      = PortModel.layer_rules_out
          ⟨.running, [⟨[], [⟨18, [], .deny⟩], ⟨[], 60⟩, ⟨[⟨0, 1, 5⟩], 60⟩⟩],
           ⟨[], 60⟩, ⟨[], 60⟩⟩ :=
  ⟨(port_lifecycle_spec
      ⟨.ready, [⟨[], [⟨18, [], .deny⟩], ⟨[], 60⟩, ⟨[⟨0, 1, 5⟩], 60⟩⟩],
       ⟨[], 60⟩, ⟨[], 60⟩⟩ idRun []).2.2.1 rfl,
   (port_lifecycle_spec
      ⟨.running, [⟨[], [⟨18, [], .deny⟩], ⟨[], 60⟩, ⟨[⟨0, 1, 5⟩], 60⟩⟩],
       ⟨[], 60⟩, ⟨[], 60⟩⟩ idRun []).2.2.2.2.2.2.2.2.2.2⟩

/-- C5: every accepted router entry's rule priority is
`(max_prefix_len - prefix_len) + 10` with `max_prefix_len` 32 for IPv4
and 128 for IPv6; hence every router rule has priority at least 10. -/
theorem make_rule_priority (dest : IpCidr) (target : RouterTarget)
    (r : RouterRule) (h : make_rule dest target = .ok r) :
    r.priority = (match dest with
                  | .ip4 c => (32 - c.prefix_len.val) + 10
                  | .ip6 c => (128 - c.prefix_len.val) + 10) ∧
    10 ≤ r.priority := by
  unfold make_rule at h
  split at h
  · exact absurd h (by simp)
  · simp only [Except.ok.injEq] at h
    subst h
    constructor
    · show prefix_len_to_priority dest = _
      unfold prefix_len_to_priority
      cases dest <;> rfl
    · show 10 ≤ prefix_len_to_priority dest
      unfold prefix_len_to_priority
      cases dest with
      | ip4 c =>
        show 10 ≤ (32 - c.prefix_len.val) + 10
        omega
      | ip6 c =>
        show 10 ≤ (128 - c.prefix_len.val) + 10
        omega

/-- C5 witness: the `/24` VPC-subnet route of the test configuration
gets priority `32 - 24 + 10 = 18`. -/
theorem make_rule_priority_witness :
    RouterRule.priority
        ⟨18, [.innerDstIp4 [.matchPrefix ⟨⟨192, 168, 77, 0⟩, 24⟩]],
         .meta ⟨.vpcSubnet (.ip4 ⟨⟨192, 168, 77, 0⟩, 24⟩)⟩⟩
      = (32 - 24) + 10 ∧
    10 ≤ RouterRule.priority
        ⟨18, [.innerDstIp4 [.matchPrefix ⟨⟨192, 168, 77, 0⟩, 24⟩]],
         .meta ⟨.vpcSubnet (.ip4 ⟨⟨192, 168, 77, 0⟩, 24⟩)⟩⟩ :=
  make_rule_priority (.ip4 ⟨⟨192, 168, 77, 0⟩, 24⟩)
    (.vpcSubnet (.ip4 ⟨⟨192, 168, 77, 0⟩, 24⟩))
    ⟨18, [.innerDstIp4 [.matchPrefix ⟨⟨192, 168, 77, 0⟩, 24⟩]],
     .meta ⟨.vpcSubnet (.ip4 ⟨⟨192, 168, 77, 0⟩, 24⟩)⟩⟩ (by decide)

/-- C3: `make_rule` (hence `router::add_entry`) accepts a
`(dest, target)` pair exactly when it is a drop, a family-matched IP or
VPC-subnet target, or an internet-gateway target on the default
destination; every other pair is rejected, and a rejected `add_entry`
leaves the router rule set unchanged. -/
theorem add_entry_validation (dest : IpCidr) (target : RouterTarget)
    (st : RouterPortState) :
    ((∃ r, make_rule dest target = .ok r) ↔
       target = .drop
       ∨ (∃ c a, dest = .ip4 c ∧ target = .ip (.ip4 a))
       ∨ (∃ c s, dest = .ip4 c ∧ target = .vpcSubnet (.ip4 s))
       ∨ (∃ c a, dest = .ip6 c ∧ target = .ip (.ip6 a))
       ∨ (∃ c s, dest = .ip6 c ∧ target = .vpcSubnet (.ip6 s))
       ∨ (target = .internetGateway ∧ dest.is_default = true)) ∧
    (∀ e, (add_entry st dest target).1 = .error e →
       (add_entry st dest target).2 = st) := by
  constructor
  · have hv : (∃ r, make_rule dest target = .ok r) ↔
        valid_router_dest_target_pair dest target = true := by
      unfold make_rule
      cases hval : valid_router_dest_target_pair dest target <;> simp [hval]
    rw [hv]
    cases dest with
    | ip4 c =>
      cases target with
      | drop => simp [valid_router_dest_target_pair]
      | internetGateway => simp [valid_router_dest_target_pair]
      | ip a => cases a <;> simp [valid_router_dest_target_pair]
      | vpcSubnet s => cases s <;> simp [valid_router_dest_target_pair]
    | ip6 c =>
      cases target with
      | drop => simp [valid_router_dest_target_pair]
      | internetGateway => simp [valid_router_dest_target_pair]
      | ip a => cases a <;> simp [valid_router_dest_target_pair]
      | vpcSubnet s => cases s <;> simp [valid_router_dest_target_pair]
  · intro e he
    unfold add_entry at he ⊢
    cases hm : make_rule dest target with
    | error e2 => rfl
    | ok r =>
      rw [hm] at he
      exact absurd he (by simp)

/-- C3 witness: an internet-gateway target paired with a non-default
destination is rejected and the router rule set is unchanged. -/
theorem add_entry_validation_witness :
    (add_entry ⟨[]⟩ (.ip4 ⟨⟨10, 0, 0, 0⟩, 24⟩)
        RouterTarget.internetGateway).2 = ⟨[]⟩ :=
  (add_entry_validation (.ip4 ⟨⟨10, 0, 0, 0⟩, 24⟩)
      RouterTarget.internetGateway ⟨[]⟩).2
    (.invalidRouterEntry (.ip4 ⟨⟨10, 0, 0, 0⟩, 24⟩)
      (String.toList "IG")) (by decide)

/-- C4: every accepted router entry with target `Drop` yields a rule
whose predicate matches the destination prefix and whose action is
`Deny`; targets `InternetGateway`, `Ip` and `VpcSubnet` yield a `Meta`
action whose `mod_meta` inserts the key `"router-target"` with value
`"ig"`, `"ip4=<addr>"`/`"ip6=<addr>"` or `"sub4=<cidr>"`/`"sub6=<cidr>"`
respectively, and returns `Allow`. -/
theorem make_rule_actions (dest : IpCidr) (target : RouterTarget)
    (r : RouterRule) (fid : InnerFlowId) (m : ActionMeta)
    (h : make_rule dest target = .ok r) :
    (r.predicates = [match dest with
                     | .ip4 c => Predicate.innerDstIp4 [.matchPrefix c]
                     | .ip6 c => Predicate.innerDstIp6 [.matchPrefix c]]) ∧
    (target = .drop → r.action = .deny) ∧
    (target = .internetGateway →
       r.action = .meta ⟨.internetGateway⟩ ∧
       RouterAction.mod_meta ⟨.internetGateway⟩ fid m =
         (.ok (.allow ()),
          m.insert (String.toList "router-target") (String.toList "ig"))) ∧
    (∀ a4, target = .ip (.ip4 a4) →
       r.action = .meta ⟨.ip (.ip4 a4)⟩ ∧
       RouterAction.mod_meta ⟨.ip (.ip4 a4)⟩ fid m =
         (.ok (.allow ()),
          m.insert (String.toList "router-target")
            (String.toList "ip4=" ++ ipv4Display a4))) ∧
    (∀ a6, target = .ip (.ip6 a6) →
       r.action = .meta ⟨.ip (.ip6 a6)⟩ ∧
       RouterAction.mod_meta ⟨.ip (.ip6 a6)⟩ fid m =
         (.ok (.allow ()),
          m.insert (String.toList "router-target")
            (String.toList "ip6=" ++ ipv6Display a6))) ∧
    (∀ s4, target = .vpcSubnet (.ip4 s4) →
       r.action = .meta ⟨.vpcSubnet (.ip4 s4)⟩ ∧
       RouterAction.mod_meta ⟨.vpcSubnet (.ip4 s4)⟩ fid m =
         (.ok (.allow ()),
          m.insert (String.toList "router-target")
            (String.toList "sub4=" ++ ipv4CidrDisplay s4))) ∧
    (∀ s6, target = .vpcSubnet (.ip6 s6) →
       r.action = .meta ⟨.vpcSubnet (.ip6 s6)⟩ ∧
       RouterAction.mod_meta ⟨.vpcSubnet (.ip6 s6)⟩ fid m =
         (.ok (.allow ()),
          m.insert (String.toList "router-target")
            (String.toList "sub6=" ++ ipv6CidrDisplay s6))) := by
  unfold make_rule at h
  split at h
  · exact absurd h (by simp)
  · simp only [Except.ok.injEq] at h
    subst h
    refine ⟨?_, ?_, ?_, ?_, ?_, ?_, ?_⟩
    · cases target <;> cases dest <;> rfl
    · intro ht
      subst ht
      cases dest <;> rfl
    · intro ht
      subst ht
      cases dest <;> exact ⟨rfl, rfl⟩
    · intro a4 ht
      subst ht
      cases dest <;> exact ⟨rfl, rfl⟩
    · intro a6 ht
      subst ht
      cases dest <;> exact ⟨rfl, rfl⟩
    · intro s4 ht
      subst ht
      cases dest <;> exact ⟨rfl, rfl⟩
    · intro s6 ht
      subst ht
      cases dest <;> exact ⟨rfl, rfl⟩

/-- C4 witness: the `/24` VPC-subnet route of the test configuration
yields a `Meta` action tagging `"router-target"` with
`"sub4=192.168.77.0/24"` and allowing. -/
theorem make_rule_actions_witness :
    make_rule (.ip4 ⟨⟨192, 168, 77, 0⟩, 24⟩)
        (.vpcSubnet (.ip4 ⟨⟨192, 168, 77, 0⟩, 24⟩))
      = .ok ⟨18, [.innerDstIp4 [.matchPrefix ⟨⟨192, 168, 77, 0⟩, 24⟩]],
             .meta ⟨.vpcSubnet (.ip4 ⟨⟨192, 168, 77, 0⟩, 24⟩)⟩⟩ ∧
    (RouterRule.action
        ⟨18, [.innerDstIp4 [.matchPrefix ⟨⟨192, 168, 77, 0⟩, 24⟩]],
         .meta ⟨.vpcSubnet (.ip4 ⟨⟨192, 168, 77, 0⟩, 24⟩)⟩⟩
       = .meta ⟨.vpcSubnet (.ip4 ⟨⟨192, 168, 77, 0⟩, 24⟩)⟩ ∧
     RouterAction.mod_meta ⟨.vpcSubnet (.ip4 ⟨⟨192, 168, 77, 0⟩, 24⟩)⟩
        ⟨.tcp, .ip4 ⟨192, 168, 77, 101⟩, 7865,
         .ip4 ⟨192, 168, 77, 102⟩, 23⟩ ([] : ActionMeta) =
       (.ok (.allow ()),
        ActionMeta.insert ([] : ActionMeta)
          (String.toList "router-target")
          (String.toList "sub4="
            ++ ipv4CidrDisplay ⟨⟨192, 168, 77, 0⟩, 24⟩))) :=
  ⟨by decide,
   (make_rule_actions (.ip4 ⟨⟨192, 168, 77, 0⟩, 24⟩)
       (.vpcSubnet (.ip4 ⟨⟨192, 168, 77, 0⟩, 24⟩))
       ⟨18, [.innerDstIp4 [.matchPrefix ⟨⟨192, 168, 77, 0⟩, 24⟩]],
        .meta ⟨.vpcSubnet (.ip4 ⟨⟨192, 168, 77, 0⟩, 24⟩)⟩⟩
       ⟨.tcp, .ip4 ⟨192, 168, 77, 101⟩, 7865,
        .ip4 ⟨192, 168, 77, 102⟩, 23⟩ ([] : ActionMeta)
       (by decide)).2.2.2.2.2.1 ⟨⟨192, 168, 77, 0⟩, 24⟩ rfl⟩

/-- C2: with `proxy_arp_enable` unset, `parse_inbound` parses an outer
Ethernet header, refuses any non-IPv6 outer L3 with
`UnexpectedEtherType` and any non-UDP outer L4 with
`UnexpectedProtocol`, and then parses Geneve before continuing at the
inner frame; with `proxy_arp_enable` set, the entire outer
Ether/IPv6/UDP/Geneve parse is skipped and parsing begins at the inner
Ethernet frame. -/
theorem parse_inbound_spec :
    (∀ (rest : Rdr) (m : EtherMeta), m.ether_type ≠ .ipv6 →
       VpcParser.parse_inbound ⟨false⟩ (.ether m :: rest)
         = .error (.unexpectedEtherType m.ether_type)) ∧
    (∀ (rest : Rdr) (m6 : Ipv6Meta) (pc : Int) (me : EtherMeta),
       me.ether_type = .ipv6 → m6.proto ≠ .udp →
       VpcParser.parse_inbound ⟨false⟩ (.ether me :: .ip6 m6 pc :: rest)
         = .error (.unexpectedProtocol m6.proto)) ∧
    (∀ (rest : Rdr) (m6 : Ipv6Meta) (pc : Int) (me : EtherMeta)
       (g : EncapMeta),
       me.ether_type = .ipv6 → m6.proto = .udp →
       VpcParser.parse_inbound ⟨false⟩
           (.ether me :: .ip6 m6 pc :: .geneve g :: rest)
         = parse_inbound_inner ⟨false⟩
             ⟨some me, some (.ip6 m6), some g⟩ rest) ∧
    (∀ rdr : Rdr,
       VpcParser.parse_inbound ⟨true⟩ rdr
         = parse_inbound_inner ⟨true⟩ {} rdr) := by
  refine ⟨?_, ?_, ?_, fun rdr => rfl⟩
  · intro rest m hne
    obtain ⟨et⟩ := m
    cases et <;>
      first
        | exact absurd rfl hne
        | rfl
  · intro rest m6 pc me hme hne
    obtain ⟨et⟩ := me
    cases hme
    obtain ⟨s, d, pr⟩ := m6
    cases pr <;>
      first
        | exact absurd rfl hne
        | rfl
  · intro rest m6 pc me g hme hpr
    obtain ⟨et⟩ := me
    cases hme
    obtain ⟨s, d, pr⟩ := m6
    cases hpr
    rfl

/-- C2 witness: an outer ARP frame is refused with
`UnexpectedEtherType`; an outer IPv6 packet carrying protocol 47 is
refused with `UnexpectedProtocol`; an outer IPv6/UDP/Geneve packet
continues at the inner frame; with proxy ARP the same reader is handed
straight to the inner parse. -/
theorem parse_inbound_spec_witness :
    VpcParser.parse_inbound ⟨false⟩ [.ether ⟨.arp⟩]
      = .error (.unexpectedEtherType .arp) ∧
    VpcParser.parse_inbound ⟨false⟩
        [.ether ⟨.ipv6⟩, .ip6 ⟨Ipv6Addr.any, Ipv6Addr.any, .unknown 47⟩ 7]
      = .error (.unexpectedProtocol (.unknown 47)) ∧
    VpcParser.parse_inbound ⟨false⟩
        [.ether ⟨.ipv6⟩, .ip6 ⟨Ipv6Addr.any, Ipv6Addr.any, .udp⟩ 7,
         .geneve ⟨99⟩, .ether ⟨.arp⟩]
      = parse_inbound_inner ⟨false⟩
          ⟨some ⟨.ipv6⟩, some (.ip6 ⟨Ipv6Addr.any, Ipv6Addr.any, .udp⟩),
           some ⟨99⟩⟩ [.ether ⟨.arp⟩] ∧
    VpcParser.parse_inbound ⟨true⟩ [.ether ⟨.arp⟩]
      = parse_inbound_inner ⟨true⟩ {} [.ether ⟨.arp⟩] :=
  ⟨parse_inbound_spec.1 [] ⟨.arp⟩ (by decide),
   parse_inbound_spec.2.1 []
     ⟨Ipv6Addr.any, Ipv6Addr.any, .unknown 47⟩ 7 ⟨.ipv6⟩ rfl (by decide),
   parse_inbound_spec.2.2.1 [.ether ⟨.arp⟩]
     ⟨Ipv6Addr.any, Ipv6Addr.any, .udp⟩ 7 ⟨.ipv6⟩ ⟨99⟩ rfl rfl,
   parse_inbound_spec.2.2.2 [.ether ⟨.arp⟩]⟩

/-- C1 (amended): for every parsed packet whose inner Ethernet type is
not ARP, `handle_pkt` returns `Deny` in both directions. On a port with
an IPv4 configuration, for an ARP frame whose payload parses as an
Ethernet/IPv4 ARP message: outbound, a request for the gateway IP is
answered with a hairpin reply synthesised from the gateway MAC and
gateway IP, anything else is denied; inbound, a hairpin reply
synthesised from the guest MAC is returned only when proxy-ARP mode is
enabled and the target protocol address equals the guest's external IP
or SNAT IP, and every other case is denied. (An ARP payload that fails
to parse yields `HdlPktError`, not `Deny` — see the counterexample.) -/
theorem handle_pkt_arp_cases (net : VpcNetwork) (pkt : Pkt)
    (ip_cfg : Ipv4Cfg) (hcfg : net.cfg.ipv4_cfg = some ip_cfg) :
    (∀ dir, pkt.meta.inner.ether.ether_type ≠ .arp →
       net.handle_pkt dir pkt = some (.ok .deny)) ∧
    (∀ arp, pkt.meta.inner.ether.ether_type = .arp →
       pkt.arp_body = some arp →
       ((is_arp_req_for_tpa ip_cfg.gateway_ip arp = true →
           net.handle_pkt .Out pkt = some (.ok (.hairpin
             (gen_arp_reply net.cfg.gateway_mac ip_cfg.gateway_ip
               arp.sha arp.spa)))) ∧
        (is_arp_req_for_tpa ip_cfg.gateway_ip arp = false →
           net.handle_pkt .Out pkt = some (.ok .deny)) ∧
        (net.cfg.proxy_arp_enable = false →
           net.handle_pkt .In pkt = some (.ok .deny)) ∧
        (∀ ext, ip_cfg.external_ips = some ext →
           net.cfg.proxy_arp_enable = true →
           is_arp_req_for_tpa ext arp = true →
           net.handle_pkt .In pkt = some (.ok (.hairpin
             (gen_arp_reply net.cfg.guest_mac ext arp.sha arp.spa)))) ∧
        (∀ sn, ip_cfg.snat = some sn →
           net.cfg.proxy_arp_enable = true →
           (∀ ext, ip_cfg.external_ips = some ext →
              is_arp_req_for_tpa ext arp = false) →
           is_arp_req_for_tpa sn.external_ip arp = true →
           net.handle_pkt .In pkt = some (.ok (.hairpin
             (gen_arp_reply net.cfg.guest_mac sn.external_ip
               arp.sha arp.spa)))) ∧
        ((∀ ext, ip_cfg.external_ips = some ext →
            is_arp_req_for_tpa ext arp = false) →
         (∀ sn, ip_cfg.snat = some sn →
            is_arp_req_for_tpa sn.external_ip arp = false) →
         net.handle_pkt .In pkt = some (.ok .deny)))) := by
  constructor
  · intro dir hne
    cases dir <;>
      cases het : pkt.meta.inner.ether.ether_type <;>
        first
          | exact absurd het hne
          | simp [VpcNetwork.handle_pkt, het]
  · intro arp het hbody
    refine ⟨?_, ?_, ?_, ?_, ?_, ?_⟩
    · intro hmatch
      simp [VpcNetwork.handle_pkt, het, VpcNetwork.handle_arp_out,
            hbody, hcfg, hmatch]
    · intro hmatch
      simp [VpcNetwork.handle_pkt, het, VpcNetwork.handle_arp_out,
            hbody, hcfg, hmatch]
    · intro hproxy
      cases hext : ip_cfg.external_ips with
      | none =>
        cases hsn : ip_cfg.snat with
        | none =>
          simp [VpcNetwork.handle_pkt, het, VpcNetwork.handle_arp_in,
                hbody, hcfg, hext, hsn, VpcNetwork.handle_arp_in_snat]
        | some sn =>
          simp [VpcNetwork.handle_pkt, het, VpcNetwork.handle_arp_in,
                hbody, hcfg, hext, hsn, VpcNetwork.handle_arp_in_snat,
                hproxy]
      | some ext =>
        cases hsn : ip_cfg.snat with
        | none =>
          simp [VpcNetwork.handle_pkt, het, VpcNetwork.handle_arp_in,
                hbody, hcfg, hext, hsn, VpcNetwork.handle_arp_in_snat,
                hproxy]
        | some sn =>
          simp [VpcNetwork.handle_pkt, het, VpcNetwork.handle_arp_in,
                hbody, hcfg, hext, hsn, VpcNetwork.handle_arp_in_snat,
                hproxy]
    · intro ext hext hproxy hmatch
      simp [VpcNetwork.handle_pkt, het, VpcNetwork.handle_arp_in,
            hbody, hcfg, hext, hproxy, hmatch]
    · intro sn hsn hproxy hextmiss hmatch
      cases hext : ip_cfg.external_ips with
      | none =>
        simp [VpcNetwork.handle_pkt, het, VpcNetwork.handle_arp_in,
              hbody, hcfg, hext, hsn, VpcNetwork.handle_arp_in_snat,
              hproxy, hmatch]
      | some ext =>
        have hm := hextmiss ext hext
        simp [VpcNetwork.handle_pkt, het, VpcNetwork.handle_arp_in,
              hbody, hcfg, hext, hsn, VpcNetwork.handle_arp_in_snat,
              hproxy, hmatch, hm]
    · intro hextmiss hsnmiss
      cases hext : ip_cfg.external_ips with
      | none =>
        cases hsn : ip_cfg.snat with
        | none =>
          simp [VpcNetwork.handle_pkt, het, VpcNetwork.handle_arp_in,
                hbody, hcfg, hext, hsn, VpcNetwork.handle_arp_in_snat]
        | some sn =>
          have hm := hsnmiss sn hsn
          simp [VpcNetwork.handle_pkt, het, VpcNetwork.handle_arp_in,
                hbody, hcfg, hext, hsn, VpcNetwork.handle_arp_in_snat, hm]
      | some ext =>
        have hm := hextmiss ext hext
        cases hsn : ip_cfg.snat with
        | none =>
          simp [VpcNetwork.handle_pkt, het, VpcNetwork.handle_arp_in,
                hbody, hcfg, hext, hsn, VpcNetwork.handle_arp_in_snat, hm]
        | some sn =>
          have hm2 := hsnmiss sn hsn
          simp [VpcNetwork.handle_pkt, het, VpcNetwork.handle_arp_in,
                hbody, hcfg, hext, hsn, VpcNetwork.handle_arp_in_snat,
                hm, hm2]

/-- C1 counterexample: an outbound packet whose inner Ethernet type is
ARP but whose ARP payload does not parse as an Ethernet/IPv4 ARP
message (for example a truncated ARP body) makes `handle_pkt` return
`Err(HdlPktError("outbound ARP"))`, not `Deny` — refuting the claim
that every ARP case other than the hairpin cases returns `Deny`. -/
theorem handle_pkt_arp_parse_failure_not_deny :
    VpcNetwork.handle_pkt
        ⟨⟨⟨2⟩, ⟨1⟩, false, some ⟨⟨192, 168, 77, 1⟩, none, none⟩⟩⟩ .Out
        ⟨{ inner := { ether := ⟨.arp⟩ } }, none⟩
      = some (.error ⟨"outbound ARP"⟩) ∧
    VpcNetwork.handle_pkt
        ⟨⟨⟨2⟩, ⟨1⟩, false, some ⟨⟨192, 168, 77, 1⟩, none, none⟩⟩⟩ .Out
        ⟨{ inner := { ether := ⟨.arp⟩ } }, none⟩
      ≠ some (.ok .deny) := by
  exact ⟨rfl, by decide⟩

/-- C1 witness: the gateway ARP request of the test configuration
(guest 192.168.77.101 asking for 192.168.77.1) is answered with a
hairpin reply from the gateway MAC and gateway IP. -/
theorem handle_pkt_arp_cases_witness :
    VpcNetwork.handle_pkt
        ⟨⟨⟨2⟩, ⟨1⟩, false, some ⟨⟨192, 168, 77, 1⟩, none, none⟩⟩⟩ .Out
        ⟨{ inner := { ether := ⟨.arp⟩ } },
         some ⟨1, 0x0800, 6, 4, .request, ⟨3⟩, ⟨192, 168, 77, 101⟩,
               ⟨0⟩, ⟨192, 168, 77, 1⟩⟩⟩
      = some (.ok (.hairpin
          (gen_arp_reply ⟨1⟩ ⟨192, 168, 77, 1⟩ ⟨3⟩
            ⟨192, 168, 77, 101⟩))) :=
  ((handle_pkt_arp_cases
      ⟨⟨⟨2⟩, ⟨1⟩, false, some ⟨⟨192, 168, 77, 1⟩, none, none⟩⟩⟩
      ⟨{ inner := { ether := ⟨.arp⟩ } },
       some ⟨1, 0x0800, 6, 4, .request, ⟨3⟩, ⟨192, 168, 77, 101⟩,
             ⟨0⟩, ⟨192, 168, 77, 1⟩⟩⟩
      ⟨⟨192, 168, 77, 1⟩, none, none⟩ rfl).2
    ⟨1, 0x0800, 6, 4, .request, ⟨3⟩, ⟨192, 168, 77, 101⟩,
     ⟨0⟩, ⟨192, 168, 77, 1⟩⟩ rfl rfl).1 (by decide)

/-- The inbound ARP handler always returns a value when the port has
an IPv4 configuration (every branch after the unwrap is `some`). -/
theorem handle_arp_in_isSome (net : VpcNetwork) (pkt : Pkt)
    (ic : Ipv4Cfg) (hcfg : net.cfg.ipv4_cfg = some ic) :
    (net.handle_arp_in pkt).isSome = true := by
  unfold VpcNetwork.handle_arp_in
  cases hbody : pkt.arp_body with
  | none => rfl
  | some arp =>
    dsimp only
    rw [hcfg]
    dsimp only
    cases hext : ic.external_ips with
    | none =>
      dsimp only
      unfold VpcNetwork.handle_arp_in_snat
      cases hsn : ic.snat with
      | none => rfl
      | some sn =>
        dsimp only
        split <;> rfl
    | some ext =>
      dsimp only
      split
      · rfl
      · unfold VpcNetwork.handle_arp_in_snat
        cases hsn : ic.snat with
        | none => rfl
        | some sn =>
          dsimp only
          split <;> rfl

/-- The outbound ARP handler always returns a value when the port has
an IPv4 configuration. -/
theorem handle_arp_out_isSome (net : VpcNetwork) (pkt : Pkt)
    (ic : Ipv4Cfg) (hcfg : net.cfg.ipv4_cfg = some ic) :
    (net.handle_arp_out pkt).isSome = true := by
  unfold VpcNetwork.handle_arp_out
  cases hbody : pkt.arp_body with
  | none => rfl
  | some arp =>
    dsimp only
    rw [hcfg]
    dsimp only
    split <;> rfl

/-- C8 (amended): `handle_pkt` is total on every non-ARP packet (it
returns `Deny`), and on ARP packets it returns a structured value —
`Deny`, `Hairpin`, or `HdlPktError` — whenever the port has an IPv4
configuration; on a port without one (`ipv4_cfg() = None`) the ARP
handlers unwrap the missing configuration and panic — see the
counterexample. -/
theorem handle_pkt_total (net : VpcNetwork) (dir : Direction) (pkt : Pkt) :
    (pkt.meta.inner.ether.ether_type ≠ .arp →
       net.handle_pkt dir pkt = some (.ok .deny)) ∧
    ((net.cfg.ipv4_cfg).isSome = true →
       (net.handle_pkt dir pkt).isSome = true) := by
  constructor
  · intro hne
    cases dir <;>
      cases het : pkt.meta.inner.ether.ether_type <;>
        first
          | exact absurd het hne
          | simp [VpcNetwork.handle_pkt, het]
  · intro hs
    cases hcfg : net.cfg.ipv4_cfg with
    | none =>
      rw [hcfg] at hs
      exact absurd hs (by decide)
    | some ic =>
      cases dir <;> cases het : pkt.meta.inner.ether.ether_type <;>
        simp only [VpcNetwork.handle_pkt, het] <;>
        first
          | rfl
          | exact handle_arp_in_isSome net pkt ic hcfg
          | exact handle_arp_out_isSome net pkt ic hcfg

/-- C8 counterexample: on a port whose configuration has no IPv4
section, `handle_pkt` on an ARP frame reaches
`self.cfg.ipv4_cfg().unwrap()` with `None` and panics (modelled as
`none`), refuting the claim that a structured result is returned for
any ARP frame in any port configuration. -/
theorem handle_pkt_panics_without_ipv4_cfg :
    VpcNetwork.handle_pkt ⟨⟨⟨2⟩, ⟨1⟩, false, none⟩⟩ .Out
        ⟨{ inner := { ether := ⟨.arp⟩ } },
         some ⟨1, 0x0800, 6, 4, .request, ⟨3⟩, ⟨192, 168, 77, 101⟩,
               ⟨0⟩, ⟨192, 168, 77, 1⟩⟩⟩
      = none := by
  rfl

/-- C8 witness: with an IPv4 configuration present, `handle_pkt` on the
same ARP frame returns a structured value. -/
theorem handle_pkt_total_witness :
    (VpcNetwork.handle_pkt
        ⟨⟨⟨2⟩, ⟨1⟩, false, some ⟨⟨192, 168, 77, 1⟩, none, none⟩⟩⟩ .Out
        ⟨{ inner := { ether := ⟨.arp⟩ } },
         some ⟨1, 0x0800, 6, 4, .request, ⟨3⟩, ⟨192, 168, 77, 101⟩,
               ⟨0⟩, ⟨192, 168, 77, 1⟩⟩⟩).isSome = true :=
  (handle_pkt_total
      ⟨⟨⟨2⟩, ⟨1⟩, false, some ⟨⟨192, 168, 77, 1⟩, none, none⟩⟩⟩ .Out
      ⟨{ inner := { ether := ⟨.arp⟩ } },
       some ⟨1, 0x0800, 6, 4, .request, ⟨3⟩, ⟨192, 168, 77, 101⟩,
             ⟨0⟩, ⟨192, 168, 77, 1⟩⟩⟩).2 (by decide)

end OpteSpec
